import Mathlib

/-!
# Wayland backend (`src/wayland_backend.c`): session state and input aggregation

A shallow embedding of the `WaylandState` record, of the listener callbacks that
mutate it, of `wl_state_reset_frame`, of the read accessors, and of session creation
(`wl_backend_init`) and teardown (`wl_backend_destroy`).

Conventions of the embedding.

* A C `int` field is an `Int`.  The two places where the code does arithmetic on
  a stored `int` (`scroll_delta += 1`, `scroll_delta -= 1`) reduce the result to
  the 32-bit two's-complement range with `wrap_int`; an unsigned 32-bit argument
  stored into an `int` field is converted with `wrap_int` as well.
* A pointer or EGL handle is a `Nat`, `0` standing for `NULL` / `EGL_NO_*`.
* `pointer_x` / `pointer_y` keep the `wl_fixed_t` argument of the last
  enter/motion event; the C field is the image of that argument under
  `(float) wl_fixed_to_double (.)`, and `0` is `0.0f`.
* `key_events` is the 16-slot array.  A read or a write at an index outside
  `0 .. 15` has no defined result in C; the functions that index the array
  return `Option`, `none` standing for such an access.
* Calls into the Wayland / EGL libraries made from inside a callback do not write
  to the record; they are appended to the ghost field `lib_calls`.
* `wl_backend_init` runs against an `InitEnv`, which fixes what each library call
  answers and which events each round-trip dispatches; its result records the
  pointer returned, the record at the `return`, and the releasing calls made.
-/

namespace WaylandBackend

/-! ## Constants -/

/-- Capacity of the key queue: `#define MAX_KEY_EVENTS 16`. -/
def MAX_KEY_EVENTS : Nat := 16

/-- The value of `BTN_LEFT` in `linux/input-event-codes.h` (`0x110`). -/
def BTN_LEFT : Nat := 0x110

/-- The value of `WL_POINTER_BUTTON_STATE_PRESSED` in the Wayland client protocol header. -/
def WL_POINTER_BUTTON_STATE_PRESSED : Nat := 1

/-- The value of `WL_POINTER_BUTTON_STATE_RELEASED` in the Wayland client protocol header. -/
def WL_POINTER_BUTTON_STATE_RELEASED : Nat := 0

/-- The value of `WL_POINTER_AXIS_VERTICAL_SCROLL` in the Wayland client protocol header. -/
def WL_POINTER_AXIS_VERTICAL_SCROLL : Nat := 0

/-- The value of `WL_KEYBOARD_KEY_STATE_PRESSED` in the Wayland client protocol header. -/
def WL_KEYBOARD_KEY_STATE_PRESSED : Nat := 1

/-- The value of `WL_OUTPUT_MODE_CURRENT` in the Wayland client protocol header. -/
def WL_OUTPUT_MODE_CURRENT : Nat := 1

/-- The value of `WL_SEAT_CAPABILITY_POINTER` in the Wayland client protocol header. -/
def WL_SEAT_CAPABILITY_POINTER : Nat := 1

/-- The value of `WL_SEAT_CAPABILITY_KEYBOARD` in the Wayland client protocol header. -/
def WL_SEAT_CAPABILITY_KEYBOARD : Nat := 2

/-! ## Machine integers -/

/-- Reduction of an integer to the range of a 32-bit two's-complement `int`. -/
def wrap_int (x : Int) : Int := (x + 2 ^ 31) % 2 ^ 32 - 2 ^ 31

/-! ## The record -/

/-- One slot of `key_events`: `struct { int key; int state; }`. -/
structure KeyEvent where
  key : Int
  state : Int
deriving DecidableEq

/-- A call into the Wayland or EGL client library issued by a callback. -/
inductive LibCall where
  | xdg_wm_base_pong (serial : Nat)
  | xdg_surface_ack_configure (serial : Nat)
  | zwlr_layer_surface_v1_ack_configure (serial : Nat)
  | wl_egl_window_resize (egl_window : Nat) (width height : Int)
  | wl_pointer_add_listener (pointer : Nat)
  | wl_keyboard_add_listener (keyboard : Nat)
  | xdg_wm_base_add_listener (wm_base : Nat)
  | wl_seat_add_listener (seat : Nat)
  | wl_output_add_listener (output : Nat)
deriving DecidableEq

/-- The `WaylandState` struct, field for field, with the ghost log `lib_calls`. -/
structure WaylandState where
  display : Nat
  registry : Nat
  compositor : Nat
  seat : Nat
  pointer : Nat
  keyboard : Nat
  output : Nat
  surface : Nat
  wm_base : Nat
  xdg_surface : Nat
  xdg_toplevel : Nat
  layer_shell : Nat
  layer_surface : Nat
  egl_window : Nat
  egl_display : Nat
  egl_context : Nat
  egl_surface : Nat
  egl_config : Nat
  width : Int
  height : Int
  configured : Int
  closed : Int
  windowed : Int
  pointer_x : Int
  pointer_y : Int
  button_pressed : Int
  button_just_pressed : Int
  button_just_released : Int
  scroll_delta : Int
  ctrl_held : Int
  key_events : Fin 16 → KeyEvent
  key_event_count : Int
  key_read_index : Int
  output_rate : Int
  lib_calls : List LibCall

/-- The record as `calloc(1, sizeof(WaylandState))` leaves it: every byte zero. -/
def calloc_state : WaylandState where
  display := 0
  registry := 0
  compositor := 0
  seat := 0
  pointer := 0
  keyboard := 0
  output := 0
  surface := 0
  wm_base := 0
  xdg_surface := 0
  xdg_toplevel := 0
  layer_shell := 0
  layer_surface := 0
  egl_window := 0
  egl_display := 0
  egl_context := 0
  egl_surface := 0
  egl_config := 0
  width := 0
  height := 0
  configured := 0
  closed := 0
  windowed := 0
  pointer_x := 0
  pointer_y := 0
  button_pressed := 0
  button_just_pressed := 0
  button_just_released := 0
  scroll_delta := 0
  ctrl_held := 0
  key_events := fun _ => ⟨0, 0⟩
  key_event_count := 0
  key_read_index := 0
  output_rate := 0
  lib_calls := []

/-- The slot `key_events[i]`, or `none` when `i` is outside the array. -/
def key_events_read (s : WaylandState) (i : Int) : Option KeyEvent :=
  if h : 0 ≤ i ∧ i < 16 then
    some (s.key_events ⟨i.toNat, by omega⟩)
  else none

/-- The array after `key_events[i] = e`, or `none` when `i` is outside the array. -/
def key_events_write (s : WaylandState) (i : Int) (e : KeyEvent) :
    Option (Fin 16 → KeyEvent) :=
  if h : 0 ≤ i ∧ i < 16 then
    some (Function.update s.key_events ⟨i.toNat, by omega⟩ e)
  else none

/-! ## Listener callbacks -/

/-- C function `wm_base_ping`: answers the ping. -/
def wm_base_ping (state : WaylandState) (serial : Nat) : WaylandState :=
  { state with lib_calls := state.lib_calls ++ [LibCall.xdg_wm_base_pong serial] }

/-- C function `xdg_surface_configure_handler`: acknowledges and sets `configured`. -/
def xdg_surface_configure_handler (state : WaylandState) (serial : Nat) : WaylandState :=
  { state with
    lib_calls := state.lib_calls ++ [LibCall.xdg_surface_ack_configure serial]
    configured := 1 }

/-- C function `toplevel_configure`: takes the size only when both dimensions are positive. -/
def toplevel_configure (state : WaylandState) (width height : Int) : WaylandState :=
  if width > 0 ∧ height > 0 then
    let state1 := { state with width := width, height := height }
    if state1.egl_window ≠ 0 then
      { state1 with lib_calls :=
          state1.lib_calls ++ [LibCall.wl_egl_window_resize state1.egl_window width height] }
    else state1
  else state

/-- C function `toplevel_close`. -/
def toplevel_close (state : WaylandState) : WaylandState :=
  { state with closed := 1 }

/-- C function `toplevel_configure_bounds`: empty body. -/
def toplevel_configure_bounds (state : WaylandState) (_width _height : Int) : WaylandState :=
  state

/-- C function `toplevel_wm_capabilities`: empty body. -/
def toplevel_wm_capabilities (state : WaylandState) : WaylandState :=
  state

/-- C function `pointer_enter`. -/
def pointer_enter (state : WaylandState) (sx sy : Int) : WaylandState :=
  { state with pointer_x := sx, pointer_y := sy }

/-- C function `pointer_leave`: empty body. -/
def pointer_leave (state : WaylandState) : WaylandState :=
  state

/-- C function `pointer_motion`. -/
def pointer_motion (state : WaylandState) (sx sy : Int) : WaylandState :=
  { state with pointer_x := sx, pointer_y := sy }

/-- C function `pointer_button`. -/
def pointer_button (state : WaylandState) (button btn_state : Nat) : WaylandState :=
  if button = BTN_LEFT then
    if btn_state = WL_POINTER_BUTTON_STATE_PRESSED then
      { state with button_pressed := 1, button_just_pressed := 1 }
    else
      { state with button_pressed := 0, button_just_released := 1 }
  else state

/-- C function `pointer_axis`: `wl_fixed_to_double(value) < 0` holds exactly when `value < 0`. -/
def pointer_axis (state : WaylandState) (axis : Nat) (value : Int) : WaylandState :=
  if axis = WL_POINTER_AXIS_VERTICAL_SCROLL then
    if value < 0 then
      { state with scroll_delta := wrap_int (state.scroll_delta + 1) }
    else
      { state with scroll_delta := wrap_int (state.scroll_delta - 1) }
  else state

/-- C function `pointer_frame`: empty body. -/
def pointer_frame (state : WaylandState) : WaylandState :=
  state

/-- C function `pointer_axis_source`: empty body. -/
def pointer_axis_source (state : WaylandState) (_source : Nat) : WaylandState :=
  state

/-- C function `pointer_axis_stop`: empty body. -/
def pointer_axis_stop (state : WaylandState) (_axis : Nat) : WaylandState :=
  state

/-- C function `pointer_axis_discrete`: empty body. -/
def pointer_axis_discrete (state : WaylandState) (_axis : Nat) (_discrete : Int) :
    WaylandState :=
  state

/-- C function `keyboard_keymap`: empty body. -/
def keyboard_keymap (state : WaylandState) : WaylandState :=
  state

/-- C function `keyboard_enter`: empty body. -/
def keyboard_enter (state : WaylandState) : WaylandState :=
  state

/-- C function `keyboard_leave`: empty body. -/
def keyboard_leave (state : WaylandState) : WaylandState :=
  state

/-- C function `keyboard_key`: appends while `key_event_count < MAX_KEY_EVENTS`.  The write goes to
slot `key_event_count`; `none` when that slot is outside the array. -/
def keyboard_key (state : WaylandState) (key state_val : Nat) : Option WaylandState :=
  if state.key_event_count < MAX_KEY_EVENTS then
    match key_events_write state state.key_event_count
        ⟨wrap_int key, if state_val = WL_KEYBOARD_KEY_STATE_PRESSED then 1 else 0⟩ with
    | some arr =>
        some { state with key_events := arr, key_event_count := state.key_event_count + 1 }
    | none => none
  else some state

/-- C function `keyboard_modifiers`: bit 2 of the depressed mask. -/
def keyboard_modifiers (state : WaylandState) (mods_depressed : Nat) : WaylandState :=
  { state with ctrl_held := if mods_depressed &&& 4 ≠ 0 then 1 else 0 }

/-- C function `keyboard_repeat_info`: empty body. -/
def keyboard_repeat_info (state : WaylandState) : WaylandState :=
  state

/-- C function `seat_capabilities`: `new_pointer` / `new_keyboard` are the proxies returned by
`wl_seat_get_pointer` / `wl_seat_get_keyboard`. -/
def seat_capabilities (state : WaylandState) (caps new_pointer new_keyboard : Nat) :
    WaylandState :=
  let state1 :=
    if caps &&& WL_SEAT_CAPABILITY_POINTER ≠ 0 ∧ state.pointer = 0 then
      { state with
        pointer := new_pointer
        lib_calls := state.lib_calls ++ [LibCall.wl_pointer_add_listener new_pointer] }
    else state
  if caps &&& WL_SEAT_CAPABILITY_KEYBOARD ≠ 0 ∧ state1.keyboard = 0 then
    { state1 with
      keyboard := new_keyboard
      lib_calls := state1.lib_calls ++ [LibCall.wl_keyboard_add_listener new_keyboard] }
  else state1

/-- C function `seat_name`: empty body. -/
def seat_name (state : WaylandState) : WaylandState :=
  state

/-- C function `output_geometry`: empty body. -/
def output_geometry (state : WaylandState) : WaylandState :=
  state

/-- C function `output_mode`: records the refresh rate (mHz) of the current mode, and its size
while no width is known. -/
def output_mode (state : WaylandState) (flags : Nat) (width height refresh : Int) :
    WaylandState :=
  if flags &&& WL_OUTPUT_MODE_CURRENT ≠ 0 then
    let state1 := { state with output_rate := refresh }
    if state1.width = 0 then
      { state1 with width := width, height := height }
    else state1
  else state

/-- C function `output_done`: empty body. -/
def output_done (state : WaylandState) : WaylandState :=
  state

/-- C function `output_scale`: empty body. -/
def output_scale (state : WaylandState) (_factor : Int) : WaylandState :=
  state

/-- C function `output_name`: empty body. -/
def output_name (state : WaylandState) : WaylandState :=
  state

/-- C function `output_description`: empty body. -/
def output_description (state : WaylandState) : WaylandState :=
  state

/-- C function `registry_global`: `interface` is the advertised interface name, compared
with the `name` member of the five interface descriptors (the interface names fixed by
the Wayland, xdg-shell and wlr-layer-shell protocols); `proxy` is what `wl_registry_bind`
returns. -/
def registry_global (state : WaylandState) (interface : String) (proxy : Nat) :
    WaylandState :=
  if interface = "wl_compositor" then
    { state with compositor := proxy }
  else if interface = "xdg_wm_base" then
    { state with
      wm_base := proxy
      lib_calls := state.lib_calls ++ [LibCall.xdg_wm_base_add_listener proxy] }
  else if interface = "zwlr_layer_shell_v1" then
    { state with layer_shell := proxy }
  else if interface = "wl_seat" then
    { state with
      seat := proxy
      lib_calls := state.lib_calls ++ [LibCall.wl_seat_add_listener proxy] }
  else if interface = "wl_output" then
    if state.output = 0 then
      { state with
        output := proxy
        lib_calls := state.lib_calls ++ [LibCall.wl_output_add_listener proxy] }
    else state
  else state

/-- C function `registry_global_remove`: empty body. -/
def registry_global_remove (state : WaylandState) (_name : Nat) : WaylandState :=
  state

/-- C function `layer_surface_configure`: `width` and `height` arrive as `uint32_t` and are stored
into `int` fields. -/
def layer_surface_configure (state : WaylandState) (serial width height : Nat) :
    WaylandState :=
  let state1 :=
    { state with
      width := wrap_int width
      height := wrap_int height
      configured := 1
      lib_calls := state.lib_calls ++ [LibCall.zwlr_layer_surface_v1_ack_configure serial] }
  if state1.egl_window ≠ 0 then
    { state1 with lib_calls :=
        state1.lib_calls ++
          [LibCall.wl_egl_window_resize state1.egl_window (wrap_int width) (wrap_int height)] }
  else state1

/-- C function `layer_surface_closed`. -/
def layer_surface_closed (state : WaylandState) : WaylandState :=
  { state with closed := 1 }

/-! ## Public API: frame reset and read accessors -/

/-- C function `wl_state_reset_frame`. -/
def wl_state_reset_frame (state : WaylandState) : WaylandState :=
  { state with
    button_just_pressed := 0
    button_just_released := 0
    scroll_delta := 0
    key_event_count := 0
    key_read_index := 0 }

/-- C function `wl_state_width`. -/
def wl_state_width (s : WaylandState) : Int := s.width

/-- C function `wl_state_height`. -/
def wl_state_height (s : WaylandState) : Int := s.height

/-- C function `wl_state_configured`. -/
def wl_state_configured (s : WaylandState) : Int := s.configured

/-- C function `wl_state_closed`. -/
def wl_state_closed (s : WaylandState) : Int := s.closed

/-- C function `wl_state_pointer_x`. -/
def wl_state_pointer_x (s : WaylandState) : Int := s.pointer_x

/-- C function `wl_state_pointer_y`. -/
def wl_state_pointer_y (s : WaylandState) : Int := s.pointer_y

/-- C function `wl_state_button_pressed`. -/
def wl_state_button_pressed (s : WaylandState) : Int := s.button_pressed

/-- C function `wl_state_button_just_pressed`. -/
def wl_state_button_just_pressed (s : WaylandState) : Int := s.button_just_pressed

/-- C function `wl_state_button_just_released`. -/
def wl_state_button_just_released (s : WaylandState) : Int := s.button_just_released

/-- C function `wl_state_scroll_delta`. -/
def wl_state_scroll_delta (s : WaylandState) : Int := s.scroll_delta

/-- C function `wl_state_ctrl_held`. -/
def wl_state_ctrl_held (s : WaylandState) : Int := s.ctrl_held

/-- C function `wl_state_output_rate`: C division of a positive `int` by `1000` is `Int` division. -/
def wl_state_output_rate (s : WaylandState) : Int :=
  if s.output_rate > 0 then s.output_rate / 1000 else 60

/-- C function `wl_state_key_event_count`. -/
def wl_state_key_event_count (s : WaylandState) : Int := s.key_event_count

/-- C function `wl_state_key_event_key`: `none` when the guarded read falls outside the array. -/
def wl_state_key_event_key (s : WaylandState) (index : Int) : Option Int :=
  if index ≥ 0 ∧ index < s.key_event_count then
    (key_events_read s index).map KeyEvent.key
  else some (-1)

/-- C function `wl_state_key_event_state`: `none` when the guarded read falls outside the array. -/
def wl_state_key_event_state (s : WaylandState) (index : Int) : Option Int :=
  if index ≥ 0 ∧ index < s.key_event_count then
    (key_events_read s index).map KeyEvent.state
  else some 0

/-! ## Sessions as event sequences -/

/-- One state-changing step of a session after `calloc`: a listener callback invoked by
the dispatcher with its arguments, or a call of `wl_state_reset_frame`. -/
inductive Event where
  | registry_global (interface : String) (proxy : Nat)
  | registry_global_remove (name : Nat)
  | wm_base_ping (serial : Nat)
  | xdg_surface_configure (serial : Nat)
  | toplevel_configure (width height : Int)
  | toplevel_close
  | toplevel_configure_bounds (width height : Int)
  | toplevel_wm_capabilities
  | pointer_enter (sx sy : Int)
  | pointer_leave
  | pointer_motion (sx sy : Int)
  | pointer_button (button btn_state : Nat)
  | pointer_axis (axis : Nat) (value : Int)
  | pointer_frame
  | pointer_axis_source (source : Nat)
  | pointer_axis_stop (axis : Nat)
  | pointer_axis_discrete (axis : Nat) (discrete : Int)
  | keyboard_keymap
  | keyboard_enter
  | keyboard_leave
  | keyboard_key (key state_val : Nat)
  | keyboard_modifiers (mods_depressed : Nat)
  | keyboard_repeat_info
  | seat_capabilities (caps new_pointer new_keyboard : Nat)
  | seat_name
  | output_geometry
  | output_mode (flags : Nat) (width height refresh : Int)
  | output_done
  | output_scale (factor : Int)
  | output_name
  | output_description
  | layer_surface_configure (serial width height : Nat)
  | layer_surface_closed
  | reset_frame
deriving DecidableEq

/-- The effect of one event on the record. -/
def dispatch (s : WaylandState) : Event → Option WaylandState
  | .registry_global i p => some (registry_global s i p)
  | .registry_global_remove n => some (registry_global_remove s n)
  | .wm_base_ping serial => some (wm_base_ping s serial)
  | .xdg_surface_configure serial => some (xdg_surface_configure_handler s serial)
  | .toplevel_configure w h => some (toplevel_configure s w h)
  | .toplevel_close => some (toplevel_close s)
  | .toplevel_configure_bounds w h => some (toplevel_configure_bounds s w h)
  | .toplevel_wm_capabilities => some (toplevel_wm_capabilities s)
  | .pointer_enter sx sy => some (pointer_enter s sx sy)
  | .pointer_leave => some (pointer_leave s)
  | .pointer_motion sx sy => some (pointer_motion s sx sy)
  | .pointer_button b st => some (pointer_button s b st)
  | .pointer_axis a v => some (pointer_axis s a v)
  | .pointer_frame => some (pointer_frame s)
  | .pointer_axis_source src => some (pointer_axis_source s src)
  | .pointer_axis_stop a => some (pointer_axis_stop s a)
  | .pointer_axis_discrete a d => some (pointer_axis_discrete s a d)
  | .keyboard_keymap => some (keyboard_keymap s)
  | .keyboard_enter => some (keyboard_enter s)
  | .keyboard_leave => some (keyboard_leave s)
  | .keyboard_key k v => keyboard_key s k v
  | .keyboard_modifiers m => some (keyboard_modifiers s m)
  | .keyboard_repeat_info => some (keyboard_repeat_info s)
  | .seat_capabilities c p k => some (seat_capabilities s c p k)
  | .seat_name => some (seat_name s)
  | .output_geometry => some (output_geometry s)
  | .output_mode f w h r => some (output_mode s f w h r)
  | .output_done => some (output_done s)
  | .output_scale f => some (output_scale s f)
  | .output_name => some (output_name s)
  | .output_description => some (output_description s)
  | .layer_surface_configure serial w h => some (layer_surface_configure s serial w h)
  | .layer_surface_closed => some (layer_surface_closed s)
  | .reset_frame => some (wl_state_reset_frame s)

/-- The events of a list applied in order. -/
def run (s : WaylandState) : List Event → Option WaylandState
  | [] => some s
  | e :: es => (dispatch s e).bind (fun s1 => run s1 es)

/-- The key-queue invariant: the count stays within the array. -/
def key_queue_inv (s : WaylandState) : Prop :=
  0 ≤ s.key_event_count ∧ s.key_event_count ≤ MAX_KEY_EVENTS

/-- A run of vertical-axis events: `pointer_axis` applied to each raw value in turn with
`axis = WL_POINTER_AXIS_VERTICAL_SCROLL`. -/
def axis_events (s : WaylandState) (values : List Int) : WaylandState :=
  values.foldl (fun st v => pointer_axis st WL_POINTER_AXIS_VERTICAL_SCROLL v) s

/-- Number of events with a negative raw value ("up"). -/
def count_up (values : List Int) : Int := (values.countP (fun v => decide (v < 0)) : Nat)

/-- Number of events with a positive raw value ("down"). -/
def count_down (values : List Int) : Int := (values.countP (fun v => decide (0 < v)) : Nat)

/-- A run of key transitions: `keyboard_key` applied to each `(key, state_val)` pair in
arrival order. -/
def key_events_run (s : WaylandState) : List (Nat × Nat) → Option WaylandState
  | [] => some s
  | e :: rest => (keyboard_key s e.1 e.2).bind (fun s1 => key_events_run s1 rest)

/-- The entry `keyboard_key` stores for a transition `(key, state_val)`. -/
def key_entry (key state_val : Nat) : KeyEvent :=
  ⟨wrap_int key, if state_val = WL_KEYBOARD_KEY_STATE_PRESSED then 1 else 0⟩

/-- A run of primary-button events: `pointer_button` applied with `button = BTN_LEFT` to
each button state in turn. -/
def button_events (s : WaylandState) (states : List Nat) : WaylandState :=
  states.foldl (fun st b => pointer_button st BTN_LEFT b) s

/-- The two configure handshakes that set `configured`: the `xdg_surface` configure of
managed-window mode and the layer-surface configure of overlay mode. -/
def is_configure_event : Event → Bool
  | .xdg_surface_configure _ => true
  | .layer_surface_configure _ _ _ => true
  | _ => false

/-! ## Session creation and teardown -/

/-- What the environment answers to the calls `wl_backend_init` makes, in call order: the
results of the allocation, of the Wayland constructors, of the EGL calls, and the events
the server has queued for each round-trip.  A handle `0` is `NULL` / `EGL_NO_*`. -/
structure InitEnv where
  calloc_ok : Bool
  display : Nat
  registry : Nat
  globals_events : List Event
  surface : Nat
  layer_surface : Nat
  xdg_surface : Nat
  xdg_toplevel : Nat
  configure_events : List Event
  egl_display : Nat
  egl_initialize : Bool
  egl_bind_api : Bool
  egl_config : Nat
  num_configs : Int
  egl_context_core : Nat
  egl_context_fallback : Nat
  egl_window : Nat
  egl_surface : Nat

/-- A resource a session can hold: the allocation of the record and one per handle
field. -/
inductive Resource where
  | allocation
  | display
  | registry
  | compositor
  | seat
  | pointer
  | keyboard
  | output
  | surface
  | wm_base
  | xdg_surface
  | xdg_toplevel
  | layer_shell
  | layer_surface
  | egl_window
  | egl_display
  | egl_context
  | egl_surface
deriving DecidableEq

/-- A releasing call: `free(state)` and the destroy / disconnect / terminate calls that
`wl_backend_init` and `wl_backend_destroy` contain. -/
inductive Release where
  | free_state
  | wl_display_disconnect
  | wl_registry_destroy
  | wl_compositor_destroy
  | wl_seat_destroy
  | wl_pointer_destroy
  | wl_keyboard_destroy
  | wl_output_destroy
  | wl_surface_destroy
  | xdg_wm_base_destroy
  | xdg_surface_destroy
  | xdg_toplevel_destroy
  | zwlr_layer_shell_v1_destroy
  | zwlr_layer_surface_v1_destroy
  | wl_egl_window_destroy
  | eglTerminate
  | eglDestroyContext
  | eglDestroySurface
deriving DecidableEq

/-- The resource a releasing call gives back. -/
def Release.resource : Release → Resource
  | .free_state => .allocation
  | .wl_display_disconnect => .display
  | .wl_registry_destroy => .registry
  | .wl_compositor_destroy => .compositor
  | .wl_seat_destroy => .seat
  | .wl_pointer_destroy => .pointer
  | .wl_keyboard_destroy => .keyboard
  | .wl_output_destroy => .output
  | .wl_surface_destroy => .surface
  | .xdg_wm_base_destroy => .wm_base
  | .xdg_surface_destroy => .xdg_surface
  | .xdg_toplevel_destroy => .xdg_toplevel
  | .zwlr_layer_shell_v1_destroy => .layer_shell
  | .zwlr_layer_surface_v1_destroy => .layer_surface
  | .wl_egl_window_destroy => .egl_window
  | .eglTerminate => .egl_display
  | .eglDestroyContext => .egl_context
  | .eglDestroySurface => .egl_surface

/-- The resources a record stands for: its own allocation and every handle field that is
set. -/
def acquired (s : WaylandState) : List Resource :=
  [Resource.allocation]
    ++ (if s.display ≠ 0 then [Resource.display] else [])
    ++ (if s.registry ≠ 0 then [Resource.registry] else [])
    ++ (if s.compositor ≠ 0 then [Resource.compositor] else [])
    ++ (if s.seat ≠ 0 then [Resource.seat] else [])
    ++ (if s.pointer ≠ 0 then [Resource.pointer] else [])
    ++ (if s.keyboard ≠ 0 then [Resource.keyboard] else [])
    ++ (if s.output ≠ 0 then [Resource.output] else [])
    ++ (if s.surface ≠ 0 then [Resource.surface] else [])
    ++ (if s.wm_base ≠ 0 then [Resource.wm_base] else [])
    ++ (if s.xdg_surface ≠ 0 then [Resource.xdg_surface] else [])
    ++ (if s.xdg_toplevel ≠ 0 then [Resource.xdg_toplevel] else [])
    ++ (if s.layer_shell ≠ 0 then [Resource.layer_shell] else [])
    ++ (if s.layer_surface ≠ 0 then [Resource.layer_surface] else [])
    ++ (if s.egl_window ≠ 0 then [Resource.egl_window] else [])
    ++ (if s.egl_display ≠ 0 then [Resource.egl_display] else [])
    ++ (if s.egl_context ≠ 0 then [Resource.egl_context] else [])
    ++ (if s.egl_surface ≠ 0 then [Resource.egl_surface] else [])

/-- How a call of `wl_backend_init` ends: the pointer it returns (`none` is `NULL`), the
record as it stands when the `return` is reached (`none` when the allocation failed), and
the releasing calls made on the way, in order. -/
structure InitOutcome where
  returned : Option WaylandState
  record : Option WaylandState
  releases : List Release

/-- The resources still held when the call has returned: those of the record that no
releasing call has given back. -/
def InitOutcome.held (o : InitOutcome) : List Resource :=
  match o.record with
  | none => []
  | some s => (acquired s).filter (fun r => decide (r ∉ o.releases.map Release.resource))

/-- The record of `wl_backend_init` after `wl_display_connect`, `wl_display_get_registry`
and the two round-trips that deliver the globals, the seat capabilities and the output
information.  `none`: the registry proxy is `NULL` and `wl_registry_add_listener`
dereferences it, or a dispatched callback has no defined result. -/
def init_globals_state (env : InitEnv) : Option WaylandState :=
  if env.registry = 0 then none
  else run { calloc_state with display := env.display, registry := env.registry }
    env.globals_events

/-- The part of `wl_backend_init` from `state->windowed = windowed` to the end of the
`if (!windowed && state->layer_shell) ... else ...` statement.  A request made on a
proxy the constructor returned as `NULL` dereferences it: `none`. -/
def init_surface (windowed : Int) (env : InitEnv) (s : WaylandState) : Option WaylandState :=
  if env.surface = 0 then none
  else if windowed = 0 ∧ s.layer_shell ≠ 0 then
    if env.layer_surface = 0 then none
    else some { s with
      windowed := windowed
      surface := env.surface
      layer_surface := env.layer_surface }
  else
    if env.xdg_surface = 0 then none
    else if env.xdg_toplevel = 0 then none
    else some { s with
      windowed := windowed
      surface := env.surface
      xdg_surface := env.xdg_surface
      xdg_toplevel := env.xdg_toplevel }

/-- The two statements `if (state->width == 0) state->width = 1920;` and
`if (state->height == 0) state->height = 1080;`. -/
def init_defaults (s : WaylandState) : WaylandState :=
  { s with
    width := if s.width = 0 then 1920 else s.width
    height := if s.height = 0 then 1080 else s.height }

/-- The context handle after `eglCreateContext` with the core-profile attributes and,
when that returns `EGL_NO_CONTEXT`, the second `eglCreateContext` with the fallback
attributes. -/
def init_egl_context (env : InitEnv) : Nat :=
  if env.egl_context_core = 0 then env.egl_context_fallback else env.egl_context_core

/-- The EGL part of `wl_backend_init`, from `eglGetDisplay` to `return state`.  Every
failure branch is `fprintf` followed by `return NULL`; the record of each branch holds
the handles stored up to that point. -/
def init_egl (env : InitEnv) (s : WaylandState) : InitOutcome :=
  if env.egl_display = 0 then
    ⟨none, some { s with egl_display := env.egl_display }, []⟩
  else if env.egl_initialize = false then
    ⟨none, some { s with egl_display := env.egl_display }, []⟩
  else if env.egl_bind_api = false then
    ⟨none, some { s with egl_display := env.egl_display }, []⟩
  else if env.num_configs = 0 then
    ⟨none, some { s with egl_display := env.egl_display, egl_config := env.egl_config }, []⟩
  else if init_egl_context env = 0 then
    ⟨none, some { s with
      egl_display := env.egl_display
      egl_config := env.egl_config
      egl_context := init_egl_context env }, []⟩
  else if env.egl_window = 0 then
    ⟨none, some { s with
      egl_display := env.egl_display
      egl_config := env.egl_config
      egl_context := init_egl_context env
      egl_window := env.egl_window }, []⟩
  else if env.egl_surface = 0 then
    ⟨none, some { s with
      egl_display := env.egl_display
      egl_config := env.egl_config
      egl_context := init_egl_context env
      egl_window := env.egl_window
      egl_surface := env.egl_surface }, []⟩
  else
    ⟨some { s with
        egl_display := env.egl_display
        egl_config := env.egl_config
        egl_context := init_egl_context env
        egl_window := env.egl_window
        egl_surface := env.egl_surface
        key_event_count := 0
        key_read_index := 0 },
      some { s with
        egl_display := env.egl_display
        egl_config := env.egl_config
        egl_context := init_egl_context env
        egl_window := env.egl_window
        egl_surface := env.egl_surface
        key_event_count := 0
        key_read_index := 0 }, []⟩

/-- C function `wl_backend_init`.  The outer `none` is a run with no defined result (a
`NULL` proxy dereferenced, see `init_globals_state` and `init_surface`).  Requests that
neither store a handle nor release a resource (anchors, title, commit, `eglMakeCurrent`,
`eglSwapInterval`, the `printf`) leave the record alone and are not represented. -/
def wl_backend_init (windowed : Int) (env : InitEnv) : Option InitOutcome :=
  if env.calloc_ok = false then some ⟨none, none, []⟩
  else if env.display = 0 then
    some ⟨none, some { calloc_state with display := env.display }, [Release.free_state]⟩
  else
    match init_globals_state env with
    | none => none
    | some s2 =>
      if s2.compositor = 0 ∨ s2.wm_base = 0 then
        some ⟨none, some s2, [Release.wl_display_disconnect, Release.free_state]⟩
      else
        match init_surface windowed env s2 with
        | none => none
        | some s3 =>
          match run s3 env.configure_events with
          | none => none
          | some s4 => some (init_egl env (init_defaults s4))

/-- C function `wl_backend_destroy` on a non-`NULL` session: the releasing calls it makes,
in order, each guarded by its handle being set, and `free(state)` last. -/
def wl_backend_destroy (state : WaylandState) : List Release :=
  (if state.egl_surface ≠ 0 then [Release.eglDestroySurface] else [])
    ++ (if state.egl_window ≠ 0 then [Release.wl_egl_window_destroy] else [])
    ++ (if state.egl_context ≠ 0 then [Release.eglDestroyContext] else [])
    ++ (if state.egl_display ≠ 0 then [Release.eglTerminate] else [])
    ++ (if state.layer_surface ≠ 0 then [Release.zwlr_layer_surface_v1_destroy] else [])
    ++ (if state.layer_shell ≠ 0 then [Release.zwlr_layer_shell_v1_destroy] else [])
    ++ (if state.xdg_toplevel ≠ 0 then [Release.xdg_toplevel_destroy] else [])
    ++ (if state.xdg_surface ≠ 0 then [Release.xdg_surface_destroy] else [])
    ++ (if state.surface ≠ 0 then [Release.wl_surface_destroy] else [])
    ++ (if state.pointer ≠ 0 then [Release.wl_pointer_destroy] else [])
    ++ (if state.keyboard ≠ 0 then [Release.wl_keyboard_destroy] else [])
    ++ (if state.seat ≠ 0 then [Release.wl_seat_destroy] else [])
    ++ (if state.wm_base ≠ 0 then [Release.xdg_wm_base_destroy] else [])
    ++ (if state.output ≠ 0 then [Release.wl_output_destroy] else [])
    ++ (if state.compositor ≠ 0 then [Release.wl_compositor_destroy] else [])
    ++ (if state.registry ≠ 0 then [Release.wl_registry_destroy] else [])
    ++ (if state.display ≠ 0 then [Release.wl_display_disconnect] else [])
    ++ [Release.free_state]

/-- A server that advertises the compositor, `xdg_wm_base`, the layer shell, a seat and an
output, answers every constructor and every EGL call with success, and sends one
configure of each kind. -/
def full_env : InitEnv where
  calloc_ok := true
  display := 1
  registry := 2
  globals_events :=
    [Event.registry_global "wl_compositor" 3, Event.registry_global "xdg_wm_base" 4,
     Event.registry_global "zwlr_layer_shell_v1" 5, Event.registry_global "wl_seat" 6,
     Event.registry_global "wl_output" 7, Event.seat_capabilities 3 8 9,
     Event.output_mode 1 2560 1440 59951]
  surface := 10
  layer_surface := 11
  xdg_surface := 12
  xdg_toplevel := 13
  configure_events :=
    [Event.layer_surface_configure 1 2560 1440, Event.toplevel_configure 0 0,
     Event.xdg_surface_configure 2]
  egl_display := 14
  egl_initialize := true
  egl_bind_api := true
  egl_config := 15
  num_configs := 1
  egl_context_core := 16
  egl_context_fallback := 0
  egl_window := 17
  egl_surface := 18

/-- The environment `full_env` except that `eglGetDisplay` returns `EGL_NO_DISPLAY`. -/
def egl_display_failure_env : InitEnv :=
  { full_env with egl_display := 0 }

/-- The environment `full_env` except that `wl_display_connect` returns `NULL`. -/
def connect_failure_env : InitEnv :=
  { full_env with display := 0 }

/-- The resources of a record that a list of releasing calls does not give back. -/
def not_released (s : WaylandState) (releases : List Release) : List Resource :=
  (acquired s).filter (fun r => decide (r ∉ releases.map Release.resource))

/-! ## General lemmas -/

theorem wrap_int_of_range (x : Int) (h1 : -2 ^ 31 ≤ x) (h2 : x < 2 ^ 31) : wrap_int x = x := by
  unfold wrap_int
  omega

theorem axis_events_cons (s : WaylandState) (v : Int) (vs : List Int) :
    axis_events s (v :: vs)
      = axis_events (pointer_axis s WL_POINTER_AXIS_VERTICAL_SCROLL v) vs := rfl

theorem count_up_cons (v : Int) (vs : List Int) :
    count_up (v :: vs) = (if v < 0 then 1 else 0) + count_up vs := by
  unfold count_up
  by_cases h : v < 0 <;> simp [List.countP_cons, h]
  omega

theorem count_down_cons (v : Int) (vs : List Int) :
    count_down (v :: vs) = (if 0 < v then 1 else 0) + count_down vs := by
  unfold count_down
  by_cases h : 0 < v <;> simp [List.countP_cons, h]
  omega

theorem count_up_nonneg (vs : List Int) : 0 ≤ count_up vs := by
  unfold count_up; omega

theorem count_down_nonneg (vs : List Int) : 0 ≤ count_down vs := by
  unfold count_down; omega

/-- With no zero value in the run and room left in the 32-bit range, the accumulator
moves by the number of negative values minus the number of positive ones. -/
theorem axis_events_scroll_delta (vs : List Int) :
    ∀ s : WaylandState, (∀ v ∈ vs, v ≠ 0) →
      -2 ^ 31 + (vs.length : Int) ≤ s.scroll_delta →
      s.scroll_delta + (vs.length : Int) < 2 ^ 31 →
      (axis_events s vs).scroll_delta = s.scroll_delta + count_up vs - count_down vs := by
  induction vs with
  | nil => intro s _ _ _; simp [axis_events, count_up, count_down]
  | cons v vs ih =>
    intro s hnz hlo hhi
    have hv : v ≠ 0 := hnz v (List.mem_cons_self v vs)
    have hrest : ∀ w ∈ vs, w ≠ 0 := fun w hw => hnz w (List.mem_cons_of_mem v hw)
    simp only [List.length_cons, Nat.cast_add, Nat.cast_one] at hlo hhi
    rw [axis_events_cons, count_up_cons, count_down_cons]
    by_cases hneg : v < 0
    · have hstep : (pointer_axis s WL_POINTER_AXIS_VERTICAL_SCROLL v).scroll_delta
          = s.scroll_delta + 1 := by
        simp only [pointer_axis, if_true, hneg]
        exact wrap_int_of_range _ (by omega) (by omega)
      rw [ih _ hrest (by rw [hstep]; omega) (by rw [hstep]; omega), hstep]
      have h0 : ¬ (0 < v) := by omega
      simp only [hneg, h0, if_true, if_false]
      omega
    · have hstep : (pointer_axis s WL_POINTER_AXIS_VERTICAL_SCROLL v).scroll_delta
          = s.scroll_delta - 1 := by
        simp only [pointer_axis, if_true, hneg, if_false]
        exact wrap_int_of_range _ (by omega) (by omega)
      rw [ih _ hrest (by rw [hstep]; omega) (by rw [hstep]; omega), hstep]
      have h0 : 0 < v := by omega
      simp only [hneg, h0, if_true, if_false]
      omega

/-! ## C1: scroll accumulator -/

/-- C1, as stated, fails: one vertical-axis event of raw value `0` from the zeroed record
is neither "up" nor "down" (N = 0, M = 0), yet `wl_state_scroll_delta` then reads `-1`,
because the `else` branch of `pointer_axis` takes every non-negative value. -/
theorem C1_zero_value_counterexample :
    calloc_state.scroll_delta = 0 ∧
    count_up [0] - count_down [0] = 0 ∧
    wl_state_scroll_delta (axis_events calloc_state [0]) = -1 ∧
    wl_state_scroll_delta (axis_events calloc_state [0]) ≠ count_up [0] - count_down [0] := by
  refine ⟨rfl, by decide, by decide, by decide⟩

/-- C1 (amended): from any state with `scroll_delta = 0`, after a run of fewer than `2^31`
vertical-axis events none of which has raw value `0`, with `N` negative and `M` positive
values and no reset in between, `wl_state_scroll_delta` returns `N - M` whatever the
magnitudes; after `wl_state_reset_frame` it returns `0`. -/
theorem C1_scroll_delta_counts (s : WaylandState) (values : List Int)
    (h0 : s.scroll_delta = 0) (hnz : ∀ v ∈ values, v ≠ 0)
    (hlen : (values.length : Int) < 2 ^ 31) :
    wl_state_scroll_delta (axis_events s values) = count_up values - count_down values ∧
    wl_state_scroll_delta (wl_state_reset_frame (axis_events s values)) = 0 := by
  refine ⟨?_, rfl⟩
  unfold wl_state_scroll_delta
  rw [axis_events_scroll_delta values s hnz (by rw [h0]; omega) (by rw [h0]; omega), h0]
  omega

/-- C1 at the spec scenario: raw value `-5` then `+3` reads `0`, and `0` after the reset. -/
theorem C1_scroll_delta_counts_witness :
    calloc_state.scroll_delta = 0 ∧ (∀ v ∈ [(-5 : Int), 3], v ≠ 0) ∧
    ((([(-5 : Int), 3]).length : Int) < 2 ^ 31) ∧
    wl_state_scroll_delta (axis_events calloc_state [-5, 3])
      = count_up [-5, 3] - count_down [-5, 3] ∧
    count_up [-5, 3] - count_down [-5, 3] = 0 ∧
    wl_state_scroll_delta (wl_state_reset_frame (axis_events calloc_state [-5, 3])) = 0 :=
  have h := C1_scroll_delta_counts calloc_state [-5, 3] rfl (by decide) (by decide)
  ⟨rfl, by decide, by decide, h.1, by decide, h.2⟩

/-! ## Key queue lemmas -/

theorem key_events_read_nat (s : WaylandState) (n : Nat) (h : n < 16) :
    key_events_read s (n : Int) = some (s.key_events ⟨n, h⟩) := by
  unfold key_events_read
  rw [dif_pos (by omega)]
  simp

theorem keyboard_key_room (s : WaylandState) (k v c : Nat) (hc : s.key_event_count = c)
    (h : c < 16) :
    keyboard_key s k v
      = some { s with
          key_events := Function.update s.key_events ⟨c, h⟩ (key_entry k v)
          key_event_count := s.key_event_count + 1 } := by
  unfold keyboard_key key_events_write
  rw [if_pos (by rw [hc]; simp [MAX_KEY_EVENTS]; omega), dif_pos (by rw [hc]; omega)]
  simp [hc, key_entry]

theorem keyboard_key_full (s : WaylandState) (k v : Nat) (h : 16 ≤ s.key_event_count) :
    keyboard_key s k v = some s := by
  unfold keyboard_key
  rw [if_neg (by simp [MAX_KEY_EVENTS]; omega)]

theorem key_events_run_full (evs : List (Nat × Nat)) (s : WaylandState)
    (h : 16 ≤ s.key_event_count) : key_events_run s evs = some s := by
  induction evs with
  | nil => rfl
  | cons e rest ih => simp [key_events_run, keyboard_key_full s e.1 e.2 h, ih]

theorem key_events_run_append (xs ys : List (Nat × Nat)) :
    ∀ s : WaylandState,
      key_events_run s (xs ++ ys) = (key_events_run s xs).bind (fun s1 => key_events_run s1 ys) := by
  induction xs with
  | nil => intro s; simp [key_events_run]
  | cons e rest ih =>
    intro s
    simp only [List.cons_append, key_events_run]
    cases keyboard_key s e.1 e.2 with
    | none => simp
    | some s1 => simp [ih s1]

/-- The queue after a run of key transitions started with `c` entries queued. -/
theorem key_events_run_spec (evs : List (Nat × Nat)) :
    ∀ (s : WaylandState) (c : Nat), s.key_event_count = c → c ≤ 16 →
      ∃ s1, key_events_run s evs = some s1 ∧
        s1.key_event_count = ((min (c + evs.length) 16 : Nat) : Int) ∧
        (∀ j : Fin 16, j.val < c → s1.key_events j = s.key_events j) ∧
        (∀ (i k v : Nat), evs[i]? = some (k, v) → ∀ h : c + i < 16,
          s1.key_events ⟨c + i, h⟩ = key_entry k v) := by
  induction evs with
  | nil =>
    intro s c hc hle
    refine ⟨s, rfl, ?_, fun _ _ => rfl, ?_⟩
    · rw [hc]; simp [hle]
    · intro i k v h; simp at h
  | cons e rest ih =>
    intro s c hc hle
    by_cases hroom : c < 16
    · obtain ⟨s1, hrun, hcount, hkeep, hnew⟩ :=
        ih { s with
              key_events := Function.update s.key_events ⟨c, hroom⟩ (key_entry e.1 e.2)
              key_event_count := s.key_event_count + 1 } (c + 1)
          (by simp [hc]) (by omega)
      refine ⟨s1, ?_, ?_, ?_, ?_⟩
      · simp [key_events_run, keyboard_key_room s e.1 e.2 c hc hroom, hrun]
      · rw [hcount]; simp only [List.length_cons]; congr 2; omega
      · intro j hj
        rw [hkeep j (by omega)]
        exact Function.update_noteq (fun h => by rw [h] at hj; simp at hj) _ _
      · intro i k v hi h
        cases i with
        | zero =>
          simp only [List.getElem?_cons_zero, Option.some.injEq] at hi
          have hk := hkeep ⟨c, hroom⟩ (by simp)
          simp only [Function.update_same] at hk
          simp only [Nat.add_zero]
          rw [hk, hi]
        | succ i =>
          simp only [List.getElem?_cons_succ] at hi
          have hn := hnew i k v hi (by omega)
          have hfin : (⟨c + (i + 1), h⟩ : Fin 16) = ⟨c + 1 + i, by omega⟩ :=
            Fin.ext (by simp; omega)
          rw [hfin]; exact hn
    · have hc16 : c = 16 := by omega
      refine ⟨s, ?_, ?_, fun _ _ => rfl, ?_⟩
      · exact key_events_run_full _ s (by rw [hc]; omega)
      · rw [hc, hc16]; simp
      · intro i k v _ h; omega

/-! ## C2: bounded key queue -/

/-- C2: from an empty key queue (`key_event_count = 0`, as `wl_state_reset_frame` leaves
it), any run of `k` key transitions through `keyboard_key` completes, after it
`wl_state_key_event_count` is `min k 16`, which is at most `MAX_KEY_EVENTS`; for every
`i < min k 16` the accessors return the keycode of the `i`-th transition (as the `int`
the code stores, which is the keycode itself below `2^31`) and `1` for pressed, `0`
otherwise; indices from `min k 16` on read the sentinel; and the resulting record is the
one the first 16 transitions alone produce, so later ones are absent and alter nothing. -/
theorem C2_key_queue_bounded (s : WaylandState) (evs : List (Nat × Nat))
    (h0 : s.key_event_count = 0) :
    ∃ s1, key_events_run s evs = some s1 ∧
      wl_state_key_event_count s1 = ((min evs.length MAX_KEY_EVENTS : Nat) : Int) ∧
      wl_state_key_event_count s1 ≤ (MAX_KEY_EVENTS : Int) ∧
      (∀ (i k v : Nat), i < MAX_KEY_EVENTS → evs[i]? = some (k, v) →
        wl_state_key_event_key s1 (i : Int) = some (wrap_int k) ∧
        (k < 2 ^ 31 → wl_state_key_event_key s1 (i : Int) = some (k : Int)) ∧
        wl_state_key_event_state s1 (i : Int)
          = some (if v = WL_KEYBOARD_KEY_STATE_PRESSED then 1 else 0)) ∧
      (∀ i : Int, ((min evs.length MAX_KEY_EVENTS : Nat) : Int) ≤ i →
        wl_state_key_event_key s1 i = some (-1) ∧ wl_state_key_event_state s1 i = some 0) ∧
      key_events_run s (evs.take MAX_KEY_EVENTS) = some s1 := by
  obtain ⟨s1, hrun, hcount, _, hnew⟩ := key_events_run_spec evs s 0 (by simpa using h0) (by omega)
  simp only [Nat.zero_add] at hcount hnew
  refine ⟨s1, hrun, ?_, ?_, ?_, ?_, ?_⟩
  · simpa [wl_state_key_event_count, MAX_KEY_EVENTS] using hcount
  · simp only [wl_state_key_event_count, MAX_KEY_EVENTS, hcount]; omega
  · intro i k v hi hget
    have hi16 : i < 16 := hi
    have hlen : i < evs.length := by
      rcases Nat.lt_or_ge i evs.length with h | h
      · exact h
      · rw [List.getElem?_eq_none h] at hget; cases hget
    have hslot := hnew i k v hget hi16
    have hin : (i : Int) ≥ 0 ∧ (i : Int) < s1.key_event_count := by
      rw [hcount]; omega
    have hkey : wl_state_key_event_key s1 (i : Int) = some (wrap_int k) := by
      unfold wl_state_key_event_key
      rw [if_pos hin, key_events_read_nat s1 i hi16, hslot]; rfl
    refine ⟨hkey, ?_, ?_⟩
    · intro hk
      rw [hkey, wrap_int_of_range _ (by omega) (by exact_mod_cast hk)]
    · unfold wl_state_key_event_state
      rw [if_pos hin, key_events_read_nat s1 i hi16, hslot]; rfl
  · intro i hi
    have hout : ¬ (i ≥ 0 ∧ i < s1.key_event_count) := by
      rw [hcount]; simp only [MAX_KEY_EVENTS] at hi; omega
    simp [wl_state_key_event_key, wl_state_key_event_state, hout]
  · rcases Nat.lt_or_ge evs.length 16 with hlt | hge
    · rw [show MAX_KEY_EVENTS = 16 from rfl, List.take_of_length_le (by omega)]; exact hrun
    · obtain ⟨s2, hrun2, hcount2, _, _⟩ :=
        key_events_run_spec (evs.take 16) s 0 (by simpa using h0) (by omega)
      have hfull : (16 : Int) ≤ s2.key_event_count := by
        rw [hcount2]; simp only [List.length_take, Nat.zero_add]; omega
      have happ := key_events_run_append (evs.take 16) (evs.drop 16) s
      rw [List.take_append_drop, hrun, hrun2] at happ
      simp [key_events_run_full _ s2 hfull] at happ
      rw [show MAX_KEY_EVENTS = 16 from rfl, hrun2, happ]

/-- C2 on seventeen transitions of keys `30, 31, ..., 46` from the zeroed record. -/
theorem C2_key_queue_bounded_witness :
    calloc_state.key_event_count = 0 ∧
    ∃ s1, key_events_run calloc_state ((List.range 17).map (fun n => (30 + n, n % 2))) = some s1 ∧
      wl_state_key_event_count s1 = 16 ∧
      wl_state_key_event_key s1 15 = some 45 ∧
      wl_state_key_event_state s1 15 = some 1 ∧
      wl_state_key_event_key s1 16 = some (-1) := by
  obtain ⟨s1, hrun, hcount, _, hin, hout, _⟩ :=
    C2_key_queue_bounded calloc_state ((List.range 17).map (fun n => (30 + n, n % 2))) rfl
  refine ⟨rfl, s1, hrun, ?_, ?_, ?_, ?_⟩
  · rw [hcount]; decide
  · have h := (hin 15 45 1 (by decide) (by decide)).2.1 (by norm_num)
    exact_mod_cast h
  · have h := (hin 15 45 1 (by decide) (by decide)).2.2
    exact_mod_cast h
  · exact (hout 16 (by decide)).1

/-! ## C3: indexed access to the key queue -/

/-- C3: for every state and every index with `index < 0` or `index >= key_event_count`,
`wl_state_key_event_key` returns `-1` and `wl_state_key_event_state` returns `0`; and
when the count is within the queue capacity (the invariant `keyboard_key` and
`wl_state_reset_frame` maintain), every index with `0 <= index < key_event_count` lies
inside the 16-slot array and both accessors return the fields of that slot. -/
theorem C3_key_event_access (s : WaylandState) (index : Int) :
    ((index < 0 ∨ index ≥ s.key_event_count) →
      wl_state_key_event_key s index = some (-1) ∧
      wl_state_key_event_state s index = some 0) ∧
    (s.key_event_count ≤ (MAX_KEY_EVENTS : Int) → 0 ≤ index → index < s.key_event_count →
      ∃ h : index.toNat < 16,
        key_events_read s index = some (s.key_events ⟨index.toNat, h⟩) ∧
        wl_state_key_event_key s index = some (s.key_events ⟨index.toNat, h⟩).key ∧
        wl_state_key_event_state s index = some (s.key_events ⟨index.toNat, h⟩).state) := by
  constructor
  · intro hout
    have hno : ¬ (index ≥ 0 ∧ index < s.key_event_count) := by omega
    simp [wl_state_key_event_key, wl_state_key_event_state, hno]
  · intro hcap h0 hlt
    simp only [MAX_KEY_EVENTS] at hcap
    have hn : index.toNat < 16 := by omega
    have hread : key_events_read s index = some (s.key_events ⟨index.toNat, hn⟩) := by
      unfold key_events_read
      rw [dif_pos (by omega)]
    refine ⟨hn, hread, ?_, ?_⟩
    · unfold wl_state_key_event_key
      rw [if_pos ⟨h0, hlt⟩, hread]; rfl
    · unfold wl_state_key_event_state
      rw [if_pos ⟨h0, hlt⟩, hread]; rfl

/-- C3 on a record holding two queued entries: index `1` reads the stored slot, indices
`2` and `-1` read the sentinels. -/
theorem C3_key_event_access_witness :
    (wl_state_key_event_key { calloc_state with key_event_count := 2 } 2 = some (-1) ∧
      wl_state_key_event_state { calloc_state with key_event_count := 2 } 2 = some 0) ∧
    (wl_state_key_event_key { calloc_state with key_event_count := 2 } (-1) = some (-1) ∧
      wl_state_key_event_state { calloc_state with key_event_count := 2 } (-1) = some 0) ∧
    (∃ h : (1 : Int).toNat < 16,
      key_events_read { calloc_state with key_event_count := 2 } 1
        = some (calloc_state.key_events ⟨(1 : Int).toNat, h⟩) ∧
      wl_state_key_event_key { calloc_state with key_event_count := 2 } 1
        = some (calloc_state.key_events ⟨(1 : Int).toNat, h⟩).key ∧
      wl_state_key_event_state { calloc_state with key_event_count := 2 } 1
        = some (calloc_state.key_events ⟨(1 : Int).toNat, h⟩).state) :=
  ⟨(C3_key_event_access { calloc_state with key_event_count := 2 } 2).1 (Or.inr (by decide)),
   (C3_key_event_access { calloc_state with key_event_count := 2 } (-1)).1 (Or.inl (by decide)),
   (C3_key_event_access { calloc_state with key_event_count := 2 } 1).2
      (by decide) (by decide) (by decide)⟩

/-! ## C4: press then release within one interval -/

theorem button_events_append (s : WaylandState) (xs ys : List Nat) :
    button_events s (xs ++ ys) = button_events (button_events s xs) ys := by
  simp [button_events, List.foldl_append]

/-- C4: for every starting state and every run of `BTN_LEFT` events that ends with a press
followed by a release, after `wl_state_reset_frame` the accessors
`wl_state_button_just_pressed`, `wl_state_button_just_released` and
`wl_state_button_pressed` all read `0`. -/
theorem C4_press_release_then_reset (s : WaylandState) (earlier : List Nat) :
    wl_state_button_just_pressed (wl_state_reset_frame (button_events s
        (earlier ++ [WL_POINTER_BUTTON_STATE_PRESSED, WL_POINTER_BUTTON_STATE_RELEASED]))) = 0 ∧
    wl_state_button_just_released (wl_state_reset_frame (button_events s
        (earlier ++ [WL_POINTER_BUTTON_STATE_PRESSED, WL_POINTER_BUTTON_STATE_RELEASED]))) = 0 ∧
    wl_state_button_pressed (wl_state_reset_frame (button_events s
        (earlier ++ [WL_POINTER_BUTTON_STATE_PRESSED, WL_POINTER_BUTTON_STATE_RELEASED]))) = 0 := by
  rw [button_events_append]
  refine ⟨rfl, rfl, ?_⟩
  simp [button_events, pointer_button, wl_state_reset_frame, wl_state_button_pressed,
    WL_POINTER_BUTTON_STATE_PRESSED, WL_POINTER_BUTTON_STATE_RELEASED]

/-! ## C5: frame of `wl_state_reset_frame` -/

/-- C5: `wl_state_reset_frame` sets `button_just_pressed`, `button_just_released`,
`scroll_delta`, `key_event_count` and `key_read_index` to `0` and leaves every other
field as it was: the pointer position, the held flags, the geometry, `configured`,
`closed`, `windowed`, the output rate, the queue slots, every handle, and it calls
nothing. -/
theorem C5_reset_frame_effect (s : WaylandState) :
    (wl_state_reset_frame s).button_just_pressed = 0 ∧
    (wl_state_reset_frame s).button_just_released = 0 ∧
    (wl_state_reset_frame s).scroll_delta = 0 ∧
    (wl_state_reset_frame s).key_event_count = 0 ∧
    (wl_state_reset_frame s).key_read_index = 0 ∧
    (wl_state_reset_frame s).pointer_x = s.pointer_x ∧
    (wl_state_reset_frame s).pointer_y = s.pointer_y ∧
    (wl_state_reset_frame s).button_pressed = s.button_pressed ∧
    (wl_state_reset_frame s).ctrl_held = s.ctrl_held ∧
    (wl_state_reset_frame s).width = s.width ∧
    (wl_state_reset_frame s).height = s.height ∧
    (wl_state_reset_frame s).configured = s.configured ∧
    (wl_state_reset_frame s).closed = s.closed ∧
    (wl_state_reset_frame s).windowed = s.windowed ∧
    (wl_state_reset_frame s).output_rate = s.output_rate ∧
    (wl_state_reset_frame s).key_events = s.key_events ∧
    (wl_state_reset_frame s).display = s.display ∧
    (wl_state_reset_frame s).registry = s.registry ∧
    (wl_state_reset_frame s).compositor = s.compositor ∧
    (wl_state_reset_frame s).seat = s.seat ∧
    (wl_state_reset_frame s).pointer = s.pointer ∧
    (wl_state_reset_frame s).keyboard = s.keyboard ∧
    (wl_state_reset_frame s).output = s.output ∧
    (wl_state_reset_frame s).surface = s.surface ∧
    (wl_state_reset_frame s).wm_base = s.wm_base ∧
    (wl_state_reset_frame s).xdg_surface = s.xdg_surface ∧
    (wl_state_reset_frame s).xdg_toplevel = s.xdg_toplevel ∧
    (wl_state_reset_frame s).layer_shell = s.layer_shell ∧
    (wl_state_reset_frame s).layer_surface = s.layer_surface ∧
    (wl_state_reset_frame s).egl_window = s.egl_window ∧
    (wl_state_reset_frame s).egl_display = s.egl_display ∧
    (wl_state_reset_frame s).egl_context = s.egl_context ∧
    (wl_state_reset_frame s).egl_surface = s.egl_surface ∧
    (wl_state_reset_frame s).egl_config = s.egl_config ∧
    (wl_state_reset_frame s).lib_calls = s.lib_calls := by
  simp [wl_state_reset_frame]

/-! ## C6: transient input state survives every callback -/

/-- C6: for every state and every event other than the frame reset (so in particular
`pointer_enter`, `pointer_motion`, `pointer_button`, `pointer_axis`, `keyboard_key`,
`keyboard_modifiers`; for `keyboard_key` the key count is taken non-negative, as it is
in every state of a session), the callback completes, a just-pressed or just-released
flag that was set is still set, `key_event_count` does not decrease, the entries already
queued are unchanged and `key_read_index` is unchanged.  The read accessors are
functions of the record and return no new record. -/
theorem C6_transient_state_kept (s : WaylandState) (ev : Event)
    (hev : ev ≠ Event.reset_frame)
    (hcount : (∃ k v, ev = Event.keyboard_key k v) → 0 ≤ s.key_event_count) :
    ∃ s1, dispatch s ev = some s1 ∧
      (s.button_just_pressed ≠ 0 → s1.button_just_pressed ≠ 0) ∧
      (s.button_just_released ≠ 0 → s1.button_just_released ≠ 0) ∧
      s.key_event_count ≤ s1.key_event_count ∧
      (∀ j : Fin 16, (j.val : Int) < s.key_event_count → s1.key_events j = s.key_events j) ∧
      s1.key_read_index = s.key_read_index := by
  cases ev with
  | reset_frame => exact absurd rfl hev
  | keyboard_key k v =>
    have hnonneg : 0 ≤ s.key_event_count := hcount ⟨k, v, rfl⟩
    by_cases hroom : s.key_event_count < 16
    · have hc : s.key_event_count = (s.key_event_count.toNat : Int) := by omega
      have hn : s.key_event_count.toNat < 16 := by omega
      refine ⟨_, keyboard_key_room s k v _ hc hn, fun h => h, fun h => h, by simp, ?_, rfl⟩
      intro j hj
      exact Function.update_noteq (fun h => by rw [h] at hj; simp at hj) _ _
    · exact ⟨s, keyboard_key_full s k v (by omega), fun h => h, fun h => h, le_refl _,
        fun _ _ => rfl, rfl⟩
  | pointer_button b st =>
    refine ⟨_, rfl, ?_⟩
    simp only [pointer_button]
    split_ifs <;> simp
  | pointer_axis a v =>
    refine ⟨_, rfl, ?_⟩
    simp only [pointer_axis]
    split_ifs <;> simp
  | toplevel_configure w h =>
    refine ⟨_, rfl, ?_⟩
    simp only [toplevel_configure]
    split_ifs <;> simp
  | seat_capabilities c p k =>
    refine ⟨_, rfl, ?_⟩
    simp only [seat_capabilities]
    split_ifs <;> simp
  | output_mode f w h r =>
    refine ⟨_, rfl, ?_⟩
    simp only [output_mode]
    split_ifs <;> simp
  | registry_global i p =>
    refine ⟨_, rfl, ?_⟩
    simp only [registry_global]
    split_ifs <;> simp
  | layer_surface_configure serial w h =>
    refine ⟨_, rfl, ?_⟩
    simp only [layer_surface_configure]
    split_ifs <;> simp
  | _ => exact ⟨_, rfl, fun h => h, fun h => h, le_refl _, fun _ _ => rfl, rfl⟩

/-- C6 at a pressed-and-queued record: a further `keyboard_key` keeps the flag, the
queued entry and the cursor, and the count does not drop. -/
theorem C6_transient_state_kept_witness :
    Event.keyboard_key 30 1 ≠ Event.reset_frame ∧
    (0 : Int) ≤ ({ calloc_state with button_just_pressed := 1, key_event_count := 1 } :
      WaylandState).key_event_count ∧
    ∃ s1, dispatch { calloc_state with button_just_pressed := 1, key_event_count := 1 }
        (Event.keyboard_key 30 1) = some s1 ∧
      s1.button_just_pressed ≠ 0 ∧
      (1 : Int) ≤ s1.key_event_count ∧
      s1.key_events 0 = calloc_state.key_events 0 ∧
      s1.key_read_index = 0 := by
  obtain ⟨s1, hrun, hjp, _, hcnt, hkeep, hidx⟩ :=
    C6_transient_state_kept { calloc_state with button_just_pressed := 1, key_event_count := 1 }
      (Event.keyboard_key 30 1) (by decide) (fun _ => by decide)
  exact ⟨by decide, by decide, s1, hrun, hjp (by decide), hcnt, hkeep 0 (by decide), hidx⟩

/-! ## Flags along a session -/

/-- A completed `keyboard_key` either leaves the record alone or replaces the array and
increments the count. -/
theorem keyboard_key_cases (s s1 : WaylandState) (k v : Nat)
    (h : keyboard_key s k v = some s1) :
    s1 = s ∨ ∃ arr, s1 = { s with key_events := arr, key_event_count := s.key_event_count + 1 } := by
  unfold keyboard_key at h
  by_cases hlt : s.key_event_count < MAX_KEY_EVENTS
  · rw [if_pos hlt] at h
    generalize key_events_write s s.key_event_count _ = w at h
    cases w with
    | none => cases h
    | some arr =>
      simp only [Option.some.injEq] at h
      exact Or.inr ⟨arr, h.symm⟩
  · rw [if_neg hlt] at h
    simp only [Option.some.injEq] at h
    exact Or.inl h.symm

/-- What one event can do to `closed` and `configured`. -/
theorem dispatch_flags (s s1 : WaylandState) (ev : Event) (h : dispatch s ev = some s1) :
    (s1.closed = s.closed ∨ s1.closed = 1) ∧
    (s1.configured = s.configured ∨ s1.configured = 1) := by
  cases ev with
  | keyboard_key k v =>
    rcases keyboard_key_cases s s1 k v h with h1 | ⟨arr, h1⟩ <;> subst h1 <;> simp
  | _ =>
    simp only [dispatch, Option.some.injEq] at h
    subst h
    simp only [registry_global, registry_global_remove, wm_base_ping,
      xdg_surface_configure_handler, toplevel_configure, toplevel_close,
      toplevel_configure_bounds, toplevel_wm_capabilities, pointer_enter, pointer_leave,
      pointer_motion, pointer_button, pointer_axis, pointer_frame, pointer_axis_source,
      pointer_axis_stop, pointer_axis_discrete, keyboard_keymap, keyboard_enter,
      keyboard_leave, keyboard_modifiers, keyboard_repeat_info, seat_capabilities, seat_name,
      output_geometry, output_mode, output_done, output_scale, output_name,
      output_description, layer_surface_configure, layer_surface_closed,
      wl_state_reset_frame]
    first | (split_ifs <;> simp) | simp

/-- Every event completes on a record whose key count is within the queue, and leaves
the count there. -/
theorem dispatch_total (s : WaylandState) (ev : Event) (hinv : key_queue_inv s) :
    ∃ s1, dispatch s ev = some s1 ∧ key_queue_inv s1 := by
  obtain ⟨hlo, hhi⟩ := hinv
  simp only [MAX_KEY_EVENTS] at hhi
  cases ev with
  | keyboard_key k v =>
    by_cases hroom : s.key_event_count < 16
    · have hc : s.key_event_count = (s.key_event_count.toNat : Int) := by omega
      have hn : s.key_event_count.toNat < 16 := by omega
      refine ⟨_, keyboard_key_room s k v _ hc hn, ?_⟩
      simp only [key_queue_inv, MAX_KEY_EVENTS]
      constructor <;> omega
    · exact ⟨s, keyboard_key_full s k v (by omega), hlo, hhi⟩
  | _ =>
    refine ⟨_, rfl, ?_⟩
    simp only [key_queue_inv, MAX_KEY_EVENTS, registry_global, registry_global_remove,
      wm_base_ping,
      xdg_surface_configure_handler, toplevel_configure, toplevel_close,
      toplevel_configure_bounds, toplevel_wm_capabilities, pointer_enter, pointer_leave,
      pointer_motion, pointer_button, pointer_axis, pointer_frame, pointer_axis_source,
      pointer_axis_stop, pointer_axis_discrete, keyboard_keymap, keyboard_enter,
      keyboard_leave, keyboard_modifiers, keyboard_repeat_info, seat_capabilities, seat_name,
      output_geometry, output_mode, output_done, output_scale, output_name,
      output_description, layer_surface_configure, layer_surface_closed,
      wl_state_reset_frame]
    first | (split_ifs <;> simp <;> omega) | (simp; omega) | omega

theorem run_total (evs : List Event) :
    ∀ s : WaylandState, key_queue_inv s → ∃ s1, run s evs = some s1 ∧ key_queue_inv s1 := by
  induction evs with
  | nil => intro s h; exact ⟨s, rfl, h⟩
  | cons e rest ih =>
    intro s h
    obtain ⟨s1, h1, hinv1⟩ := dispatch_total s e h
    obtain ⟨s2, h2, hinv2⟩ := ih s1 hinv1
    exact ⟨s2, by simp [run, h1, h2], hinv2⟩

theorem run_flags (evs : List Event) :
    ∀ s s1 : WaylandState, run s evs = some s1 →
      (s.closed = 1 → s1.closed = 1) ∧ (s.configured = 1 → s1.configured = 1) := by
  induction evs with
  | nil =>
    intro s s1 h
    simp only [run, Option.some.injEq] at h
    subst h
    exact ⟨fun h => h, fun h => h⟩
  | cons e rest ih =>
    intro s s1 h
    simp only [run] at h
    cases hd : dispatch s e with
    | none => rw [hd] at h; cases h
    | some s2 =>
      rw [hd] at h
      change run s2 rest = some s1 at h
      obtain ⟨hc, hf⟩ := dispatch_flags s s2 e hd
      obtain ⟨ihc, ihf⟩ := ih s2 s1 h
      constructor
      · intro h1; apply ihc; rcases hc with hc | hc
        · rw [hc]; exact h1
        · exact hc
      · intro h1; apply ihf; rcases hf with hf | hf
        · rw [hf]; exact h1
        · exact hf
/-- An event that is not one of the two configure handshakes leaves `configured` as it
was. -/
theorem dispatch_configured_kept (s s1 : WaylandState) (ev : Event)
    (hev : is_configure_event ev = false) (h : dispatch s ev = some s1) :
    s1.configured = s.configured := by
  cases ev with
  | xdg_surface_configure serial => simp [is_configure_event] at hev
  | layer_surface_configure serial w h => simp [is_configure_event] at hev
  | keyboard_key k v =>
    rcases keyboard_key_cases s s1 k v h with h1 | ⟨arr, h1⟩ <;> subst h1 <;> rfl
  | _ =>
    simp only [dispatch, Option.some.injEq] at h
    subst h
    simp only [registry_global, registry_global_remove, wm_base_ping,
      toplevel_configure, toplevel_close,
      toplevel_configure_bounds, toplevel_wm_capabilities, pointer_enter, pointer_leave,
      pointer_motion, pointer_button, pointer_axis, pointer_frame, pointer_axis_source,
      pointer_axis_stop, pointer_axis_discrete, keyboard_keymap, keyboard_enter,
      keyboard_leave, keyboard_modifiers, keyboard_repeat_info, seat_capabilities, seat_name,
      output_geometry, output_mode, output_done, output_scale, output_name,
      output_description, layer_surface_closed, wl_state_reset_frame] <;>
    (split_ifs <;> simp)

/-! ## C7: output refresh rate -/

/-- C7, as stated, fails: a current-mode event reporting `-1000` mHz stores a nonzero
`output_rate`, and `wl_state_output_rate` then returns `60`, not the quotient `-1`,
because the accessor tests `output_rate > 0`. -/
theorem C7_negative_rate_counterexample :
    (output_mode calloc_state WL_OUTPUT_MODE_CURRENT 1920 1080 (-1000)).output_rate = -1000 ∧
    (output_mode calloc_state WL_OUTPUT_MODE_CURRENT 1920 1080 (-1000)).output_rate ≠ 0 ∧
    (output_mode calloc_state WL_OUTPUT_MODE_CURRENT 1920 1080 (-1000)).output_rate / 1000 = -1 ∧
    wl_state_output_rate (output_mode calloc_state WL_OUTPUT_MODE_CURRENT 1920 1080 (-1000))
      = 60 ∧
    wl_state_output_rate (output_mode calloc_state WL_OUTPUT_MODE_CURRENT 1920 1080 (-1000))
      ≠ (output_mode calloc_state WL_OUTPUT_MODE_CURRENT 1920 1080 (-1000)).output_rate / 1000 := by
  refine ⟨by decide, by decide, by decide, by decide, by decide⟩

/-- C7 (amended): `wl_state_output_rate` returns the stored milli-hertz rate floor-divided
by `1000` whenever the stored `output_rate` is positive, and `60` whenever it is zero (its
initial value) or negative; `output_mode` stores the reported refresh value when the mode
event carries the current flag and leaves the record alone when it does not. -/
theorem C7_output_rate (s : WaylandState) :
    (0 < s.output_rate →
      wl_state_output_rate s = s.output_rate / 1000 ∧
      1000 * wl_state_output_rate s ≤ s.output_rate ∧
      s.output_rate < 1000 * (wl_state_output_rate s + 1)) ∧
    (s.output_rate ≤ 0 → wl_state_output_rate s = 60) ∧
    (calloc_state.output_rate = 0 ∧ wl_state_output_rate calloc_state = 60) ∧
    (∀ (flags : Nat) (width height refresh : Int),
      (flags &&& WL_OUTPUT_MODE_CURRENT ≠ 0 →
        (output_mode s flags width height refresh).output_rate = refresh) ∧
      (flags &&& WL_OUTPUT_MODE_CURRENT = 0 →
        output_mode s flags width height refresh = s)) := by
  refine ⟨?_, ?_, ⟨rfl, by decide⟩, ?_⟩
  · intro hpos
    have hrate : wl_state_output_rate s = s.output_rate / 1000 := by
      simp [wl_state_output_rate, hpos]
    rw [hrate]
    refine ⟨rfl, ?_, ?_⟩ <;> omega
  · intro hle
    have hno : ¬ (s.output_rate > 0) := by omega
    simp [wl_state_output_rate, hno]
  · intro flags width height refresh
    constructor
    · intro hcur
      simp only [output_mode, if_pos hcur]
      split_ifs <;> rfl
    · intro hcur
      simp [output_mode, hcur]

/-- C7 at a 59.951 Hz output, at the zeroed record, and at a mode event without the
current flag. -/
theorem C7_output_rate_witness :
    wl_state_output_rate (output_mode calloc_state WL_OUTPUT_MODE_CURRENT 1920 1080 59951) = 59 ∧
    wl_state_output_rate calloc_state = 60 ∧
    output_mode calloc_state 2 1920 1080 59951 = calloc_state :=
  ⟨by
    have h := ((C7_output_rate
      (output_mode calloc_state WL_OUTPUT_MODE_CURRENT 1920 1080 59951)).1 (by decide)).1
    rw [h]; decide,
   (C7_output_rate calloc_state).2.1 (by decide),
   ((C7_output_rate calloc_state).2.2.2 2 1920 1080 59951).2 (by decide)⟩

/-! ## C8: toplevel configure -/

/-- C8: for every state, `toplevel_configure` with a zero width or a zero height leaves
`width` and `height` as they were, with both `width > 0` and `height > 0` it replaces
them with the delivered values, and in every case `configured` and `closed` are
unchanged. -/
theorem C8_toplevel_configure (s : WaylandState) (width height : Int) :
    ((width = 0 ∨ height = 0) →
      wl_state_width (toplevel_configure s width height) = wl_state_width s ∧
      wl_state_height (toplevel_configure s width height) = wl_state_height s) ∧
    ((width > 0 ∧ height > 0) →
      wl_state_width (toplevel_configure s width height) = width ∧
      wl_state_height (toplevel_configure s width height) = height) ∧
    wl_state_configured (toplevel_configure s width height) = wl_state_configured s ∧
    wl_state_closed (toplevel_configure s width height) = wl_state_closed s := by
  refine ⟨?_, ?_, ?_, ?_⟩
  · intro hz
    have hno : ¬ (width > 0 ∧ height > 0) := by omega
    simp [toplevel_configure, hno]
  · intro hpos
    simp only [toplevel_configure, if_pos hpos, wl_state_width, wl_state_height]
    split_ifs <;> simp
  · simp only [toplevel_configure, wl_state_configured]
    split_ifs <;> rfl
  · simp only [toplevel_configure, wl_state_closed]
    split_ifs <;> rfl

/-- C8 on the default geometry: a `0 x 0` configure keeps `1920 x 1080`, an `800 x 600`
configure replaces it. -/
theorem C8_toplevel_configure_witness :
    (wl_state_width (toplevel_configure { calloc_state with width := 1920, height := 1080 } 0 0)
        = 1920 ∧
      wl_state_height (toplevel_configure { calloc_state with width := 1920, height := 1080 } 0 0)
        = 1080) ∧
    (wl_state_width
        (toplevel_configure { calloc_state with width := 1920, height := 1080 } 800 600) = 800 ∧
      wl_state_height
        (toplevel_configure { calloc_state with width := 1920, height := 1080 } 800 600) = 600) :=
  ⟨(C8_toplevel_configure { calloc_state with width := 1920, height := 1080 } 0 0).1
      (Or.inl rfl),
   (C8_toplevel_configure { calloc_state with width := 1920, height := 1080 } 800 600).2.1
      ⟨by decide, by decide⟩⟩

/-! ## C9: `closed` is terminal -/

/-- C9: from every state of a session (key count within the queue, as after
`wl_backend_init`) in which `closed` is `1`, every sequence of listener callbacks and
`wl_state_reset_frame` calls completes and `closed` is still `1` after it; `toplevel_close`
and `layer_surface_closed` set `closed` to `1`, change no other field and call nothing. -/
theorem C9_closed_terminal (s : WaylandState) (evs : List Event)
    (hinv : key_queue_inv s) (hclosed : wl_state_closed s = 1) :
    (∃ s1, run s evs = some s1 ∧ wl_state_closed s1 = 1) ∧
    (∀ t : WaylandState,
      toplevel_close t = { t with closed := 1 } ∧
      layer_surface_closed t = { t with closed := 1 } ∧
      wl_state_closed (toplevel_close t) = 1 ∧
      wl_state_closed (layer_surface_closed t) = 1) := by
  constructor
  · obtain ⟨s1, hrun, _⟩ := run_total evs s hinv
    exact ⟨s1, hrun, (run_flags evs s s1 hrun).1 hclosed⟩
  · intro t
    exact ⟨rfl, rfl, rfl, rfl⟩

/-- C9 on a closed session that then receives a reset, a key, two configures, a button
press and an output mode. -/
theorem C9_closed_terminal_witness :
    key_queue_inv (toplevel_close calloc_state) ∧
    wl_state_closed (toplevel_close calloc_state) = 1 ∧
    ∃ s1, run (toplevel_close calloc_state)
        [Event.reset_frame, Event.keyboard_key 30 1, Event.toplevel_configure 800 600,
         Event.xdg_surface_configure 7, Event.pointer_button BTN_LEFT 1,
         Event.output_mode 1 1920 1080 60000] = some s1 ∧
      wl_state_closed s1 = 1 :=
  ⟨⟨by decide, by decide⟩, rfl,
   (C9_closed_terminal (toplevel_close calloc_state)
      [Event.reset_frame, Event.keyboard_key 30 1, Event.toplevel_configure 800 600,
       Event.xdg_surface_configure 7, Event.pointer_button BTN_LEFT 1,
       Event.output_mode 1 1920 1080 60000] ⟨by decide, by decide⟩ rfl).1⟩

/-! ## C10: `configured` latches -/

/-- C10: `configured` is `0` in the record as allocated; an event other than the two
configure handshakes leaves it as it was; `xdg_surface_configure_handler` and
`layer_surface_configure` set it to `1`; and from every state of a session (key count
within the queue) in which it is `1`, every sequence of listener callbacks and
`wl_state_reset_frame` calls completes and it is still `1` after it. -/
theorem C10_configured_latch (s : WaylandState) (evs : List Event) :
    wl_state_configured calloc_state = 0 ∧
    (∀ (ev : Event) (s1 : WaylandState), is_configure_event ev = false →
      dispatch s ev = some s1 → wl_state_configured s1 = wl_state_configured s) ∧
    (∀ serial : Nat, wl_state_configured (xdg_surface_configure_handler s serial) = 1) ∧
    (∀ serial width height : Nat,
      wl_state_configured (layer_surface_configure s serial width height) = 1) ∧
    (key_queue_inv s → wl_state_configured s = 1 →
      ∃ s1, run s evs = some s1 ∧ wl_state_configured s1 = 1) := by
  refine ⟨rfl, ?_, fun _ => rfl, ?_, ?_⟩
  · intro ev s1 hev h
    exact dispatch_configured_kept s s1 ev hev h
  · intro serial width height
    simp only [layer_surface_configure, wl_state_configured]
    split_ifs <;> rfl
  · intro hinv hconf
    obtain ⟨s1, hrun, _⟩ := run_total evs s hinv
    exact ⟨s1, hrun, (run_flags evs s s1 hrun).2 hconf⟩

/-- C10 on a session configured once that then receives a reset, a zero-size toplevel
configure, a close and a key. -/
theorem C10_configured_latch_witness :
    key_queue_inv (xdg_surface_configure_handler calloc_state 1) ∧
    wl_state_configured (xdg_surface_configure_handler calloc_state 1) = 1 ∧
    ∃ s1, run (xdg_surface_configure_handler calloc_state 1)
        [Event.reset_frame, Event.toplevel_configure 0 0, Event.toplevel_close,
         Event.keyboard_key 30 1] = some s1 ∧
      wl_state_configured s1 = 1 :=
  ⟨⟨by decide, by decide⟩, rfl,
   (C10_configured_latch (xdg_surface_configure_handler calloc_state 1)
      [Event.reset_frame, Event.toplevel_configure 0 0, Event.toplevel_close,
       Event.keyboard_key 30 1]).2.2.2.2 ⟨by decide, by decide⟩ rfl⟩

/-! ## C13: `pointer_button` reacts to the primary button only -/

/-- C13: for every state, every button code other than `BTN_LEFT` and every button state,
`pointer_button` returns the record unchanged; for `BTN_LEFT`, a pressed event sets
`button_pressed` and `button_just_pressed` to `1` and changes nothing else (so
`button_just_released` is as before), and a released event (any state value other than
pressed) sets `button_pressed` to `0` and `button_just_released` to `1` and changes
nothing else (so `button_just_pressed` is as before). -/
theorem C13_pointer_button_primary_only (s : WaylandState) (button btn_state : Nat) :
    (button ≠ BTN_LEFT → pointer_button s button btn_state = s) ∧
    (pointer_button s BTN_LEFT WL_POINTER_BUTTON_STATE_PRESSED
        = { s with button_pressed := 1, button_just_pressed := 1 } ∧
      wl_state_button_pressed (pointer_button s BTN_LEFT WL_POINTER_BUTTON_STATE_PRESSED) = 1 ∧
      wl_state_button_just_pressed
        (pointer_button s BTN_LEFT WL_POINTER_BUTTON_STATE_PRESSED) = 1 ∧
      wl_state_button_just_released
        (pointer_button s BTN_LEFT WL_POINTER_BUTTON_STATE_PRESSED)
          = wl_state_button_just_released s) ∧
    (btn_state ≠ WL_POINTER_BUTTON_STATE_PRESSED →
      pointer_button s BTN_LEFT btn_state
        = { s with button_pressed := 0, button_just_released := 1 } ∧
      wl_state_button_pressed (pointer_button s BTN_LEFT btn_state) = 0 ∧
      wl_state_button_just_released (pointer_button s BTN_LEFT btn_state) = 1 ∧
      wl_state_button_just_pressed (pointer_button s BTN_LEFT btn_state)
        = wl_state_button_just_pressed s) ∧
    (pointer_button s BTN_LEFT WL_POINTER_BUTTON_STATE_RELEASED
        = { s with button_pressed := 0, button_just_released := 1 }) := by
  refine ⟨?_, ⟨?_, ?_, ?_, ?_⟩, ?_, ?_⟩
  · intro hb
    simp [pointer_button, hb]
  · simp [pointer_button]
  · simp [pointer_button, wl_state_button_pressed]
  · simp [pointer_button, wl_state_button_just_pressed]
  · simp [pointer_button, wl_state_button_just_released]
  · intro hst
    refine ⟨?_, ?_, ?_, ?_⟩ <;>
      simp [pointer_button, hst, wl_state_button_pressed, wl_state_button_just_released,
        wl_state_button_just_pressed]
  · simp [pointer_button, WL_POINTER_BUTTON_STATE_RELEASED, WL_POINTER_BUTTON_STATE_PRESSED]

/-- C13 on the zeroed record: the right button (`BTN_RIGHT = 0x111`) changes nothing, and
a release of the left button after a press leaves just-pressed set. -/
theorem C13_pointer_button_primary_only_witness :
    pointer_button calloc_state 0x111 1 = calloc_state ∧
    wl_state_button_pressed
      (pointer_button (pointer_button calloc_state BTN_LEFT 1) BTN_LEFT 0) = 0 ∧
    wl_state_button_just_released
      (pointer_button (pointer_button calloc_state BTN_LEFT 1) BTN_LEFT 0) = 1 ∧
    wl_state_button_just_pressed
      (pointer_button (pointer_button calloc_state BTN_LEFT 1) BTN_LEFT 0) = 1 :=
  ⟨(C13_pointer_button_primary_only calloc_state 0x111 1).1 (by decide),
   ((C13_pointer_button_primary_only (pointer_button calloc_state BTN_LEFT 1) BTN_LEFT 0).2.2.1
      (by decide)).2.1,
   ((C13_pointer_button_primary_only (pointer_button calloc_state BTN_LEFT 1) BTN_LEFT 0).2.2.1
      (by decide)).2.2.1,
   ((C13_pointer_button_primary_only (pointer_button calloc_state BTN_LEFT 1) BTN_LEFT 0).2.2.1
      (by decide)).2.2.2⟩

/-! ## Presentation objects along a session -/

/-- No event touches the three presentation handles. -/
theorem dispatch_presentation_kept (s s1 : WaylandState) (ev : Event)
    (h : dispatch s ev = some s1) :
    s1.layer_surface = s.layer_surface ∧ s1.xdg_surface = s.xdg_surface ∧
    s1.xdg_toplevel = s.xdg_toplevel := by
  cases ev with
  | keyboard_key k v =>
    rcases keyboard_key_cases s s1 k v h with h1 | ⟨arr, h1⟩ <;> subst h1 <;> exact ⟨rfl, rfl, rfl⟩
  | _ =>
    simp only [dispatch, Option.some.injEq] at h
    subst h
    simp only [registry_global, registry_global_remove, wm_base_ping,
      xdg_surface_configure_handler, toplevel_configure, toplevel_close,
      toplevel_configure_bounds, toplevel_wm_capabilities, pointer_enter, pointer_leave,
      pointer_motion, pointer_button, pointer_axis, pointer_frame, pointer_axis_source,
      pointer_axis_stop, pointer_axis_discrete, keyboard_keymap, keyboard_enter,
      keyboard_leave, keyboard_modifiers, keyboard_repeat_info, seat_capabilities, seat_name,
      output_geometry, output_mode, output_done, output_scale, output_name,
      output_description, layer_surface_configure, layer_surface_closed,
      wl_state_reset_frame]
    first | (split_ifs <;> simp) | simp

theorem run_presentation_kept (evs : List Event) :
    ∀ s s1 : WaylandState, run s evs = some s1 →
      s1.layer_surface = s.layer_surface ∧ s1.xdg_surface = s.xdg_surface ∧
      s1.xdg_toplevel = s.xdg_toplevel := by
  induction evs with
  | nil =>
    intro s s1 h
    simp only [run, Option.some.injEq] at h
    subst h
    exact ⟨rfl, rfl, rfl⟩
  | cons e rest ih =>
    intro s s1 h
    simp only [run] at h
    cases hd : dispatch s e with
    | none => rw [hd] at h; cases h
    | some s2 =>
      rw [hd] at h
      change run s2 rest = some s1 at h
      obtain ⟨a1, a2, a3⟩ := dispatch_presentation_kept s s2 e hd
      obtain ⟨b1, b2, b3⟩ := ih s2 s1 h
      exact ⟨b1.trans a1, b2.trans a2, b3.trans a3⟩

theorem init_globals_state_presentation (env : InitEnv) (sg : WaylandState)
    (h : init_globals_state env = some sg) :
    sg.layer_surface = 0 ∧ sg.xdg_surface = 0 ∧ sg.xdg_toplevel = 0 := by
  unfold init_globals_state at h
  simp only at h
  split_ifs at h
  exact run_presentation_kept _ _ _ h

/-- The branch `init_surface` takes, read off the handles it leaves. -/
theorem init_surface_spec (windowed : Int) (env : InitEnv) (s s3 : WaylandState)
    (h : init_surface windowed env s = some s3) :
    ((windowed = 0 ∧ s.layer_shell ≠ 0) →
      s3.layer_surface ≠ 0 ∧ s3.xdg_surface = s.xdg_surface ∧
      s3.xdg_toplevel = s.xdg_toplevel) ∧
    (¬ (windowed = 0 ∧ s.layer_shell ≠ 0) →
      s3.layer_surface = s.layer_surface ∧ s3.xdg_surface ≠ 0 ∧ s3.xdg_toplevel ≠ 0) := by
  simp only [init_surface] at h
  split_ifs at h with h1 h2 h3 h4 h5
  all_goals simp only [Option.some.injEq] at h
  all_goals subst h
  · exact ⟨fun _ => ⟨h3, rfl, rfl⟩, fun hn => absurd h2 hn⟩
  · exact ⟨fun hy => absurd hy h2, fun _ => ⟨rfl, h4, h5⟩⟩

theorem init_defaults_presentation (s : WaylandState) :
    (init_defaults s).layer_surface = s.layer_surface ∧
    (init_defaults s).xdg_surface = s.xdg_surface ∧
    (init_defaults s).xdg_toplevel = s.xdg_toplevel := by
  exact ⟨rfl, rfl, rfl⟩

theorem init_egl_presentation (env : InitEnv) (s st : WaylandState)
    (h : (init_egl env s).returned = some st) :
    st.layer_surface = s.layer_surface ∧ st.xdg_surface = s.xdg_surface ∧
    st.xdg_toplevel = s.xdg_toplevel := by
  simp only [init_egl] at h
  split_ifs at h
  all_goals simp only [Option.some.injEq] at h
  all_goals (subst h; exact ⟨rfl, rfl, rfl⟩)

/-- Every failure branch of the EGL part returns `NULL` with no releasing call made. -/
theorem init_egl_releases (env : InitEnv) (s : WaylandState) :
    (init_egl env s).releases = [] := by
  simp only [init_egl]
  split_ifs <;> rfl
/-! ## C11: presentation mode -/

/-- C11: whenever `wl_backend_init` returns a session, with `sg` the record at the point
of the mode decision (after the round-trips that deliver the globals): the session is in
managed-window mode (`xdg_surface` and `xdg_toplevel` set, `layer_surface` unset) if and
only if `windowed` was requested or the `layer_shell` global is unavailable, and in
overlay mode (`layer_surface` set, `xdg_surface` and `xdg_toplevel` unset) if and only if
not; so exactly one of `layer_surface`, `xdg_toplevel` is set; and no later sequence of
callbacks and frame resets changes any of the three handles. -/
theorem C11_presentation_mode (windowed : Int) (env : InitEnv) (o : InitOutcome)
    (st : WaylandState) (hinit : wl_backend_init windowed env = some o)
    (hret : o.returned = some st) :
    ∃ sg, init_globals_state env = some sg ∧
      ((st.xdg_surface ≠ 0 ∧ st.xdg_toplevel ≠ 0 ∧ st.layer_surface = 0) ↔
        (windowed ≠ 0 ∨ sg.layer_shell = 0)) ∧
      ((st.layer_surface ≠ 0 ∧ st.xdg_surface = 0 ∧ st.xdg_toplevel = 0) ↔
        ¬ (windowed ≠ 0 ∨ sg.layer_shell = 0)) ∧
      ((st.layer_surface ≠ 0 ∧ st.xdg_toplevel = 0) ∨
        (st.layer_surface = 0 ∧ st.xdg_toplevel ≠ 0)) ∧
      (∀ (evs : List Event) (st1 : WaylandState), run st evs = some st1 →
        st1.layer_surface = st.layer_surface ∧ st1.xdg_surface = st.xdg_surface ∧
        st1.xdg_toplevel = st.xdg_toplevel) := by
  unfold wl_backend_init at hinit
  split_ifs at hinit with hc hd
  · simp only [Option.some.injEq] at hinit
    subst hinit
    cases hret
  · simp only [Option.some.injEq] at hinit
    subst hinit
    cases hret
  · cases hg : init_globals_state env with
    | none => rw [hg] at hinit; cases hinit
    | some sg =>
      rw [hg] at hinit
      simp only at hinit
      split_ifs at hinit with hmiss
      · simp only [Option.some.injEq] at hinit
        subst hinit
        cases hret
      · cases hs : init_surface windowed env sg with
        | none => rw [hs] at hinit; cases hinit
        | some s3 =>
          rw [hs] at hinit
          simp only at hinit
          cases hr : run s3 env.configure_events with
          | none => rw [hr] at hinit; cases hinit
          | some s4 =>
            rw [hr] at hinit
            simp only [Option.some.injEq] at hinit
            subst hinit
            obtain ⟨g1, g2, g3⟩ := init_globals_state_presentation env sg hg
            obtain ⟨r1, r2, r3⟩ := run_presentation_kept _ s3 s4 hr
            obtain ⟨d1, d2, d3⟩ := init_defaults_presentation s4
            obtain ⟨e1, e2, e3⟩ := init_egl_presentation env (init_defaults s4) st hret
            have hl : st.layer_surface = s3.layer_surface := by rw [e1, d1, r1]
            have hx : st.xdg_surface = s3.xdg_surface := by rw [e2, d2, r2]
            have ht : st.xdg_toplevel = s3.xdg_toplevel := by rw [e3, d3, r3]
            obtain ⟨hov, hmw⟩ := init_surface_spec windowed env sg s3 hs
            refine ⟨sg, rfl, ?_, ?_, ?_, fun evs st1 h => run_presentation_kept evs st st1 h⟩
            · rw [hl, hx, ht]
              by_cases hmode : windowed = 0 ∧ sg.layer_shell ≠ 0
              · obtain ⟨a1, a2, a3⟩ := hov hmode
                constructor
                · intro hm; exact absurd hm.2.2 a1
                · intro hm; rcases hm with hm | hm
                  · exact absurd hmode.1 hm
                  · exact absurd hm hmode.2
              · obtain ⟨a1, a2, a3⟩ := hmw hmode
                constructor
                · intro _
                  by_cases hw : windowed = 0
                  · right
                    by_contra hne
                    exact hmode ⟨hw, hne⟩
                  · left; exact hw
                · intro _; exact ⟨a2, a3, by rw [a1, g1]⟩
            · rw [hl, hx, ht]
              by_cases hmode : windowed = 0 ∧ sg.layer_shell ≠ 0
              · obtain ⟨a1, a2, a3⟩ := hov hmode
                constructor
                · intro _ hm
                  rcases hm with hm | hm
                  · exact hm hmode.1
                  · exact hmode.2 hm
                · intro _; exact ⟨a1, by rw [a2, g2], by rw [a3, g3]⟩
              · obtain ⟨a1, a2, a3⟩ := hmw hmode
                constructor
                · intro hm; exact absurd hm.2.1 a2
                · intro hn
                  exfalso
                  apply hn
                  by_cases hw : windowed = 0
                  · right
                    by_contra hne
                    exact hmode ⟨hw, hne⟩
                  · left; exact hw
            · rw [hl, ht]
              by_cases hmode : windowed = 0 ∧ sg.layer_shell ≠ 0
              · obtain ⟨a1, a2, a3⟩ := hov hmode
                left; exact ⟨a1, by rw [a3, g3]⟩
              · obtain ⟨a1, a2, a3⟩ := hmw hmode
                right; exact ⟨by rw [a1, g1], a3⟩

/-- C11 on a server that offers the layer shell: without `windowed` the session is an
overlay (`layer_surface` set, no toplevel), with `windowed` it is a managed window. -/
theorem C11_presentation_mode_witness :
    (∃ o st, wl_backend_init 0 full_env = some o ∧ o.returned = some st ∧
      st.layer_surface = 11 ∧ st.xdg_toplevel = 0 ∧
      ((st.layer_surface ≠ 0 ∧ st.xdg_toplevel = 0) ∨
        (st.layer_surface = 0 ∧ st.xdg_toplevel ≠ 0))) ∧
    (∃ o st, wl_backend_init 1 full_env = some o ∧ o.returned = some st ∧
      st.layer_surface = 0 ∧ st.xdg_toplevel = 13 ∧
      ((st.layer_surface ≠ 0 ∧ st.xdg_toplevel = 0) ∨
        (st.layer_surface = 0 ∧ st.xdg_toplevel ≠ 0))) := by
  constructor
  · have hv : ((wl_backend_init 0 full_env).bind (fun o => o.returned)).map
        (fun st => (st.layer_surface, st.xdg_toplevel)) = some (11, 0) := by decide
    obtain ⟨st, hst, hval⟩ := Option.map_eq_some'.mp hv
    obtain ⟨o, ho, hret⟩ := Option.bind_eq_some.mp hst
    obtain ⟨sg, _, _, _, h, _⟩ := C11_presentation_mode 0 full_env o st ho hret
    simp only [Prod.mk.injEq] at hval
    exact ⟨o, st, ho, hret, hval.1, hval.2, h⟩
  · have hv : ((wl_backend_init 1 full_env).bind (fun o => o.returned)).map
        (fun st => (st.layer_surface, st.xdg_toplevel)) = some (0, 13) := by decide
    obtain ⟨st, hst, hval⟩ := Option.map_eq_some'.mp hv
    obtain ⟨o, ho, hret⟩ := Option.bind_eq_some.mp hst
    obtain ⟨sg, _, _, _, h, _⟩ := C11_presentation_mode 1 full_env o st ho hret
    simp only [Prod.mk.injEq] at hval
    exact ⟨o, st, ho, hret, hval.1, hval.2, h⟩

/-- When every Wayland constructor answers with a proxy, `wl_backend_init` has a defined
outcome whatever the server sends and whatever EGL answers. -/
theorem wl_backend_init_defined (windowed : Int) (env : InitEnv)
    (hreg : env.registry ≠ 0) (hsurf : env.surface ≠ 0) (hls : env.layer_surface ≠ 0)
    (hxs : env.xdg_surface ≠ 0) (hxt : env.xdg_toplevel ≠ 0) :
    ∃ o, wl_backend_init windowed env = some o := by
  unfold wl_backend_init
  split_ifs with hc hd
  · exact ⟨_, rfl⟩
  · exact ⟨_, rfl⟩
  · have hg : ∃ sg, init_globals_state env = some sg ∧ key_queue_inv sg := by
      unfold init_globals_state
      simp only [hreg, if_false]
      exact run_total _ _
        ⟨(by decide : (0 : Int) ≤ 0), (by decide : (0 : Int) ≤ ((16 : Nat) : Int))⟩
    obtain ⟨sg, hsg, hinv⟩ := hg
    rw [hsg]
    simp only
    split_ifs with hmiss
    · exact ⟨_, rfl⟩
    · have hs : ∃ s3, init_surface windowed env sg = some s3 ∧ key_queue_inv s3 := by
        simp only [init_surface, hsurf, hls, hxs, hxt, if_false]
        split_ifs
        · exact ⟨_, rfl, hinv⟩
        · exact ⟨_, rfl, hinv⟩
      obtain ⟨s3, hs3, hinv3⟩ := hs
      rw [hs3]
      simp only
      obtain ⟨s4, hs4, _⟩ := run_total env.configure_events s3 hinv3
      rw [hs4]
      exact ⟨_, rfl⟩

/-! ## C12: failure paths of `wl_backend_init` -/

/-- The record exists at every `return` of the EGL part. -/
theorem init_egl_record (env : InitEnv) (s : WaylandState) :
    (init_egl env s).record.isSome = true := by
  simp only [init_egl]
  split_ifs <;> rfl

/-- At every `return` of the EGL part, the failing ones included, no releasing call has
been made and everything the record stands for is still held, the allocation included. -/
theorem init_egl_held (env : InitEnv) (s : WaylandState) :
    ∃ r, (init_egl env s).record = some r ∧ (init_egl env s).held = acquired r ∧
      Resource.allocation ∈ (init_egl env s).held := by
  have hrel := init_egl_releases env s
  obtain ⟨r, hr⟩ := Option.isSome_iff_exists.mp (init_egl_record env s)
  have hheld : (init_egl env s).held = acquired r := by
    simp [InitOutcome.held, hr, hrel]
  refine ⟨r, hr, hheld, ?_⟩
  rw [hheld]
  simp [acquired]

/-- C12 fails on the code: with a connected display, the compositor and `xdg_wm_base`
bound, and `eglGetDisplay` returning `EGL_NO_DISPLAY`, `wl_backend_init` returns `NULL`
having made no releasing call, so the allocation, the display connection, the registry,
the bound globals, the surface and the xdg objects are all still held.  The sibling
path for a failed connection returns `NULL` with nothing held, and the calls
`wl_backend_destroy` would make on the leaked record give everything back. -/
theorem C12_egl_failure_releases_nothing :
    (wl_backend_init 1 egl_display_failure_env).map (fun o => o.returned.isNone) = some true ∧
    (wl_backend_init 1 egl_display_failure_env).map (fun o => o.releases) = some [] ∧
    (wl_backend_init 1 egl_display_failure_env).map InitOutcome.held
      = some [Resource.allocation, Resource.display, Resource.registry, Resource.compositor,
          Resource.seat, Resource.pointer, Resource.keyboard, Resource.output,
          Resource.surface, Resource.wm_base, Resource.xdg_surface, Resource.xdg_toplevel,
          Resource.layer_shell] ∧
    (wl_backend_init 1 connect_failure_env).map (fun o => o.returned.isNone) = some true ∧
    (wl_backend_init 1 connect_failure_env).map InitOutcome.held = some [] ∧
    (wl_backend_init 1 egl_display_failure_env).map
        (fun o => o.record.map (fun r => not_released r (wl_backend_destroy r)))
      = some (some []) := by
  refine ⟨by decide, by decide, by decide, by decide, by decide, by decide⟩

end WaylandBackend
